import Mathlib

/-!
Verification of the ThirdEye bank-statement analysis pipeline.

This file gives a shallow embedding, in Lean 4, of the parts of the
`thirdeye` backend that the checked properties speak about:

* the canonical transaction dictionaries produced by the extraction tiers
  and the pure post-processing passes over them
  (`_deduplicate_transactions`, `_validate_balance_chain`,
  `_compute_accuracy_score`, `_store_transactions` in
  `backend/agents/extraction.py`),
* the fraud agent (`backend/agents/fraud.py`),
* the layout-context assembly (`backend/agents/layout.py`) and the
  `is_scanned_pdf` primitive (`backend/services/pdf_processor.py`),
* the per-document and group orchestrator
  (`backend/orchestrator.py`), modelled as a state machine over an
  explicit store.

Python floats are modelled as exact rationals; Python `datetime.now()`
is modelled as a monotone counter threaded through the store.  Free-text
`details` strings and the item payloads of fraud-check results are
elided (only the fields the properties mention are kept); JSON
serialisation (`json.dumps`) is not modelled, the serialised source
dictionary is kept as-is.
-/

namespace ThirdEye

/-- Python `a or b` where `a` is an optional number: `a` when it is present
and truthy (non-zero), else `b`. -/
def pyOrQ (a : Option ℚ) (b : ℚ) : ℚ :=
  match a with
  | some x => if x = 0 then b else x
  | none => b

/-- Python `a or b` where both sides are optional numbers (the result may be
`None`): `a` when present and non-zero, else `b`. -/
def pyOrOptQ (a b : Option ℚ) : Option ℚ :=
  match a with
  | some x => if x = 0 then b else some x
  | none => b

/-- Python `a or b` where `a` is an optional string: `a` when it is present
and truthy (non-empty), else `b`. -/
def pyOrS (a : Option String) (b : String) : String :=
  match a with
  | some s => if s = "" then b else s
  | none => b

/-- Python `a or b` where both sides are optional strings. -/
def pyOrOptS (a b : Option String) : Option String :=
  match a with
  | some s => if s = "" then b else some s
  | none => b

/-- Round-half-to-even to an integer, i.e. the behaviour of Python `round`
on exact values.  For non-ties this is the nearest integer. -/
def roundHalfEven (x : ℚ) : ℤ :=
  if x - ⌊x⌋ = 1/2 then (if 2 ∣ ⌊x⌋ then ⌊x⌋ else ⌊x⌋ + 1) else round x

/-- Python `round(x, 2)` as an exact rational. -/
def pyRound2 (x : ℚ) : ℚ := (roundHalfEven (x * 100) : ℚ) / 100

/-- Python `round(x, 1)` as an exact rational. -/
def pyRound1 (x : ℚ) : ℚ := (roundHalfEven (x * 10) : ℚ) / 10

/-- Python `s.strip()`: leading and trailing whitespace removed (defined on
the character list so that it evaluates inside the kernel). -/
def pyStrip (s : String) : String :=
  String.mk (((s.data.dropWhile (fun c => c.isWhitespace)).reverse.dropWhile
    (fun c => c.isWhitespace)).reverse)

/-- Python `s.upper()` (ASCII). -/
def pyUpper (s : String) : String := String.mk (s.data.map Char.toUpper)

/-- Python `s[:n]`. -/
def pyTake (s : String) (n : ℕ) : String := String.mk (s.data.take n)

/-- Accumulating worker of `pySplitWs`. -/
def pySplitWsAux : List Char → List Char → List String
  | [], acc => if acc.isEmpty then [] else [String.mk acc.reverse]
  | c :: cs, acc =>
    if c.isWhitespace then
      if acc.isEmpty then pySplitWsAux cs [] else String.mk acc.reverse :: pySplitWsAux cs []
    else pySplitWsAux cs (c :: acc)

/-- Python `s.split()`: split on whitespace runs, discarding empty parts. -/
def pySplitWs (s : String) : List String := pySplitWsAux s.data []

/-- Python `int(s)` guarded by `s.isdigit()`: defined when the string is
non-empty and all digits. -/
def pyParseNat (s : String) : Option ℕ :=
  if s.data ≠ [] ∧ s.data.all Char.isDigit then
    some (s.data.foldl (fun n c => n * 10 + (c.toNat - 48)) 0)
  else none

/-- Two-digit, zero-padded decimal numeral. -/
def pad2 (n : ℕ) : String := if n < 10 then "0" ++ toString n else toString n

/-- Python `f"{x:.2f}"` on an exact rational (the signed zero that IEEE
floats would print for tiny negative values is not modelled). -/
def fmt2 (x : ℚ) : String :=
  let c : ℤ := roundHalfEven (x * 100)
  (if c < 0 then "-" else "")
    ++ toString (c.natAbs / 100) ++ "." ++ pad2 (c.natAbs % 100)

/-- Contiguous-substring scan over character lists. -/
def containsSubList (pat : List Char) : List Char → Bool
  | [] => pat.isEmpty
  | c :: cs => pat.isPrefixOf (c :: cs) || containsSubList pat cs

/-- Python `pattern in text` substring test. -/
def containsSub (hay pat : String) : Bool :=
  containsSubList pat.data hay.data

/-- A canonical extracted transaction: the dictionary shape assembled by the
three extraction tiers in `backend/agents/extraction.py`.  An absent key and
a key holding `None` are identified. -/
structure ETxn where
  transaction_date : Option String := none
  value_date : Option String := none
  description : Option String := none
  withdrawal : Option ℚ := none
  deposit : Option ℚ := none
  balance : Option ℚ := none
  transaction_type : String := ""
  channel : Option String := none
  counterparty : Option String := none
  reference : Option String := none
  currency : Option String := none
  page_number : Option ℕ := none
  account_section : ℕ := 0
  deriving Repr, DecidableEq

namespace ETxn

/-- `(t.get("value_date") or t.get("transaction_date") or "").strip()` -/
def dedupDate (t : ETxn) : String :=
  pyStrip (pyOrS t.value_date (pyOrS t.transaction_date ""))

/-- `t.get("withdrawal") or t.get("deposit") or 0` -/
def amtOf (t : ETxn) : ℚ :=
  pyOrQ t.withdrawal (pyOrQ t.deposit 0)

end ETxn

/-- Pass-1 fingerprint of `_deduplicate_transactions`
(extraction.py:1581-1591): `date|desc[:60]|amount|balance|type`. -/
def exactKey (t : ETxn) : String :=
  t.dedupDate ++ "|" ++ pyTake (pyStrip (pyOrS t.description "")) 60 ++ "|"
    ++ fmt2 t.amtOf ++ "|" ++ fmt2 (pyOrQ t.balance 0) ++ "|" ++ t.transaction_type

/-- Pass-2 fuzzy fingerprint of `_deduplicate_transactions`
(extraction.py:1598-1612): defined only for credit/debit transactions with a
known balance. -/
def fuzzyKey (t : ETxn) : Option String :=
  match t.balance with
  | some b =>
    if t.transaction_type = "credit" ∨ t.transaction_type = "debit" then
      some (t.dedupDate ++ "|" ++ fmt2 b ++ "|" ++ t.transaction_type ++ "|" ++ fmt2 t.amtOf)
    else none
  | none => none

/-- Keep-first filtering against a set of already-seen keys: an element whose
key is `none` is always kept; one whose key was already seen is dropped. -/
def keepFirst (key : α → Option String) : List String → List α → List α
  | _, [] => []
  | seen, t :: ts =>
    match key t with
    | none => t :: keepFirst key seen ts
    | some k => if k ∈ seen then keepFirst key seen ts else t :: keepFirst key (k :: seen) ts

/-- `_deduplicate_transactions` (extraction.py:1567-1624): pass 1 keeps the
first transaction for each exact fingerprint, pass 2 keeps the first
credit/debit-with-balance transaction for each fuzzy fingerprint. -/
def deduplicate_transactions (txns : List ETxn) : List ETxn :=
  keepFirst fuzzyKey [] (keepFirst (fun t => some (exactKey t)) [] txns)

/-- The keys of the keyed elements of a list. -/
def keysOf (key : α → Option String) (xs : List α) : List String := xs.filterMap key

theorem keepFirst_sublist (key : α → Option String) (seen : List String) (xs : List α) :
    List.Sublist (keepFirst key seen xs) xs := by
  induction xs generalizing seen with
  | nil => simp [keepFirst]
  | cons t ts ih =>
    simp only [keepFirst]
    cases key t with
    | none => exact (ih seen).cons₂ t
    | some k =>
      by_cases hk : k ∈ seen
      · simp only [hk, if_pos]
        exact (ih seen).cons t
      · simp only [hk, if_neg, not_false_iff]
        exact (ih (k :: seen)).cons₂ t

theorem keysOf_keepFirst (key : α → Option String) (seen : List String) (xs : List α) :
    (keysOf key (keepFirst key seen xs)).Nodup ∧
      ∀ k ∈ keysOf key (keepFirst key seen xs), k ∉ seen := by
  induction xs generalizing seen with
  | nil => simp [keepFirst, keysOf]
  | cons t ts ih =>
    simp only [keepFirst]
    cases hkey : key t with
    | none =>
      simpa [keysOf, List.filterMap_cons, hkey] using ih seen
    | some k =>
      by_cases hk : k ∈ seen
      · simp only [hk, if_pos]
        exact ih seen
      · simp only [hk, if_neg, not_false_iff]
        obtain ⟨hnd, hdisj⟩ := ih (k :: seen)
        refine ⟨?_, ?_⟩
        · simp only [keysOf, List.filterMap_cons, hkey, List.nodup_cons]
          exact ⟨fun hmem => (hdisj k hmem) (List.mem_cons_self k seen), hnd⟩
        · intro k2 hk2
          simp only [keysOf, List.filterMap_cons, hkey, List.mem_cons] at hk2
          rcases hk2 with rfl | hk2
          · exact hk
          · exact fun hs => (hdisj k2 hk2) (List.mem_cons_of_mem k hs)

theorem keepFirst_eq_self (key : α → Option String) (seen : List String) (xs : List α)
    (h1 : (keysOf key xs).Nodup) (h2 : ∀ k ∈ keysOf key xs, k ∉ seen) :
    keepFirst key seen xs = xs := by
  induction xs generalizing seen with
  | nil => simp [keepFirst]
  | cons t ts ih =>
    simp only [keepFirst]
    cases hkey : key t with
    | none =>
      simp only [keysOf, List.filterMap_cons, hkey] at h1 h2
      exact congrArg (t :: ·) (ih seen h1 h2)
    | some k =>
      simp only [keysOf, List.filterMap_cons, hkey, List.nodup_cons, List.mem_cons] at h1 h2
      have hkseen : k ∉ seen := h2 k (Or.inl rfl)
      simp only [hkseen, if_neg, not_false_iff]
      refine congrArg (t :: ·) (ih (k :: seen) h1.2 ?_)
      intro k2 hk2
      simp only [List.mem_cons]
      rintro (rfl | hs)
      · exact h1.1 hk2
      · exact h2 k2 (Or.inr hk2) hs

/-- C7. De-duplication is idempotent, and it only ever drops later
duplicates (the result is a sublist of the input). -/
theorem c7_dedup_idempotent (txns : List ETxn) :
    deduplicate_transactions (deduplicate_transactions txns) = deduplicate_transactions txns ∧
      List.Sublist (deduplicate_transactions txns) txns := by
  classical
  set key1 : ETxn → Option String := fun t => some (exactKey t) with hkey1
  have hsub : List.Sublist (deduplicate_transactions txns) txns :=
    (keepFirst_sublist fuzzyKey [] _).trans (keepFirst_sublist key1 [] txns)
  refine ⟨?_, hsub⟩
  set y := keepFirst key1 [] txns with hy
  set z := keepFirst fuzzyKey [] y with hz
  have hznodup1 : (keysOf key1 z).Nodup := by
    have hyz : List.Sublist z y := keepFirst_sublist fuzzyKey [] y
    have : List.Sublist (keysOf key1 z) (keysOf key1 y) := List.Sublist.filterMap key1 hyz
    exact ((keysOf_keepFirst key1 [] txns).1).sublist this
  have hstep1 : keepFirst key1 [] z = z :=
    keepFirst_eq_self key1 [] z hznodup1 (by simp)
  have hstep2 : keepFirst fuzzyKey [] z = z :=
    keepFirst_eq_self fuzzyKey [] z ((keysOf_keepFirst fuzzyKey [] y).1) (by simp)
  show keepFirst fuzzyKey [] (keepFirst key1 [] z) = z
  rw [hstep1, hstep2]

/-! ## Balance-chain validation (`_validate_balance_chain`, extraction.py:1627-1723) -/

/-- A recorded balance-chain break (extraction.py:1698-1707). -/
structure ChainBreak where
  index : ℕ
  section_id : ℕ
  date : Option String
  description : String
  expected_balance : ℚ
  actual_balance : ℚ
  difference : ℚ
  deriving Repr, DecidableEq

/-- The dictionary returned by `_validate_balance_chain`. -/
structure ChainResult where
  total_checked : ℕ
  valid : ℕ
  invalid : ℕ
  chain_accuracy_pct : ℚ
  breaks : List ChainBreak
  sections : ℕ
  deriving Repr, DecidableEq

/-- Insert into a sorted list of keys. -/
def insertSorted (n : ℕ) : List ℕ → List ℕ
  | [] => [n]
  | m :: ms => if n ≤ m then n :: m :: ms else m :: insertSorted n ms

/-- Ascending sort of section keys (`sorted(sections.keys())`). -/
def sortKeys (ks : List ℕ) : List ℕ := ks.foldr insertSorted []

/-- Grouping by explicit `account_section` tags, one group per distinct tag,
iterated in ascending key order. -/
def tagSections (txns : List ETxn) : List (ℕ × List ETxn) :=
  (sortKeys ((txns.map (·.account_section)).dedup)).map
    (fun k => (k, txns.filter (fun t => t.account_section = k)))

/-- Sequential splitting on `opening_balance` markers: a marker opens a new
section only when the current section already has transactions. -/
def splitSectionsGo (cur : List ETxn) : List ETxn → List (List ETxn)
  | [] => [cur.reverse]
  | t :: ts =>
    if t.transaction_type = "opening_balance" ∧ cur ≠ [] then
      cur.reverse :: splitSectionsGo [t] ts
    else splitSectionsGo (t :: cur) ts

/-- Marker-based sections, numbered 0, 1, 2, … (an empty transaction list
touches no section key at all). -/
def splitSections : List ETxn → List (ℕ × List ETxn)
  | [] => []
  | t :: ts => (splitSectionsGo [] (t :: ts)).enum

/-- Partition into sections: by `account_section` tag when any tag is
non-zero, otherwise by `opening_balance` markers. -/
def sectionsOf (txns : List ETxn) : List (ℕ × List ETxn) :=
  if txns.any (fun t => t.account_section ≠ 0) then tagSections txns else splitSections txns

/-- A transaction takes part in the chain check when it is a credit or debit
with a known balance. -/
def chainEligible (t : ETxn) : Bool :=
  (t.transaction_type == "credit" || t.transaction_type == "debit") && t.balance.isSome

/-- Running totals of the chain check. -/
structure ChainAcc where
  valid : ℕ := 0
  invalid : ℕ := 0
  breaks : List ChainBreak := []
  deriving Repr, DecidableEq

/-- One consecutive pair of the chain check: `prev.balance ± amount` must
equal the current balance within a 0.02 tolerance; at most 20 breaks are
recorded. -/
def chainPairStep (secId i : ℕ) (prev t : ETxn) (acc : ChainAcc) : ChainAcc :=
  let amt := t.amtOf
  let prevBal := prev.balance.getD 0
  let currBal := t.balance.getD 0
  let expected :=
    if t.transaction_type = "debit" then pyRound2 (prevBal - amt) else pyRound2 (prevBal + amt)
  let diff := |expected - currBal|
  if diff ≤ 2/100 then { acc with valid := acc.valid + 1 }
  else
    let brk : ChainBreak :=
      { index := i, section_id := secId,
        date := pyOrOptS t.value_date t.transaction_date,
        description := pyTake (pyOrS t.description "") 50,
        expected_balance := expected, actual_balance := currBal,
        difference := pyRound2 diff }
    let newBreaks := if acc.breaks.length < 20 then acc.breaks ++ [brk] else acc.breaks
    { acc with invalid := acc.invalid + 1, breaks := newBreaks }

/-- The pair loop `for i in range(1, len(sec_txns))`. -/
def chainPairs (secId : ℕ) : ℕ → ETxn → List ETxn → ChainAcc → ChainAcc
  | _, _, [], acc => acc
  | i, prev, t :: ts, acc => chainPairs secId (i + 1) t ts (chainPairStep secId i prev t acc)

/-- Chain check of one section over its eligible transactions. -/
def chainSection (acc : ChainAcc) : ℕ × List ETxn → ChainAcc
  | (secId, sec) =>
    match sec.filter chainEligible with
    | [] => acc
    | p :: rest => chainPairs secId 1 p rest acc

/-- `_validate_balance_chain` (extraction.py:1627-1723). -/
def validate_balance_chain (txns : List ETxn) : ChainResult :=
  let secs := sectionsOf txns
  let acc := secs.foldl chainSection {}
  let total := acc.valid + acc.invalid
  { total_checked := total, valid := acc.valid, invalid := acc.invalid,
    chain_accuracy_pct :=
      if 0 < total then pyRound1 ((acc.valid : ℚ) / (total : ℚ) * 100) else 100,
    breaks := acc.breaks, sections := secs.length }

theorem chainPairStep_breaks_le (secId i : ℕ) (prev t : ETxn) (acc : ChainAcc)
    (h : acc.breaks.length ≤ 20) : (chainPairStep secId i prev t acc).breaks.length ≤ 20 := by
  unfold chainPairStep
  dsimp only
  split_ifs <;>
    first
      | exact h
      | (simp only [List.length_append, List.length_singleton]; omega)

theorem chainPairStep_count (secId i : ℕ) (prev t : ETxn) (acc : ChainAcc) :
    (chainPairStep secId i prev t acc).valid + (chainPairStep secId i prev t acc).invalid
      = acc.valid + acc.invalid + 1 := by
  unfold chainPairStep
  dsimp only
  split_ifs <;> dsimp only <;> omega

theorem chainPairs_breaks_le (secId : ℕ) (ts : List ETxn) :
    ∀ (i : ℕ) (prev : ETxn) (acc : ChainAcc), acc.breaks.length ≤ 20 →
      (chainPairs secId i prev ts acc).breaks.length ≤ 20 := by
  induction ts with
  | nil => intro i prev acc h; simpa [chainPairs] using h
  | cons t ts ih =>
    intro i prev acc h
    simp only [chainPairs]
    exact ih _ _ _ (chainPairStep_breaks_le _ _ _ _ _ h)

theorem chainPairs_count (secId : ℕ) (ts : List ETxn) :
    ∀ (i : ℕ) (prev : ETxn) (acc : ChainAcc),
      (chainPairs secId i prev ts acc).valid + (chainPairs secId i prev ts acc).invalid
        = acc.valid + acc.invalid + ts.length := by
  induction ts with
  | nil => intro i prev acc; simp [chainPairs]
  | cons t ts ih =>
    intro i prev acc
    simp only [chainPairs, List.length_cons]
    rw [ih, chainPairStep_count]
    omega

theorem chainSection_breaks_le (acc : ChainAcc) (p : ℕ × List ETxn)
    (h : acc.breaks.length ≤ 20) : (chainSection acc p).breaks.length ≤ 20 := by
  obtain ⟨secId, sec⟩ := p
  simp only [chainSection]
  cases sec.filter chainEligible with
  | nil => exact h
  | cons q rest => exact chainPairs_breaks_le _ _ _ _ _ h

theorem chainSection_count (acc : ChainAcc) (p : ℕ × List ETxn) :
    (chainSection acc p).valid + (chainSection acc p).invalid
      = acc.valid + acc.invalid + ((p.2.filter chainEligible).length - 1) := by
  obtain ⟨secId, sec⟩ := p
  simp only [chainSection]
  cases sec.filter chainEligible with
  | nil => simp
  | cons q rest => rw [chainPairs_count]; simp

theorem foldl_chainSection_breaks_le (secs : List (ℕ × List ETxn)) :
    ∀ acc : ChainAcc, acc.breaks.length ≤ 20 →
      (secs.foldl chainSection acc).breaks.length ≤ 20 := by
  induction secs with
  | nil => intro acc h; simpa using h
  | cons p ps ih =>
    intro acc h
    simp only [List.foldl_cons]
    exact ih _ (chainSection_breaks_le acc p h)

theorem foldl_chainSection_count (secs : List (ℕ × List ETxn)) :
    ∀ acc : ChainAcc,
      (secs.foldl chainSection acc).valid + (secs.foldl chainSection acc).invalid
        = acc.valid + acc.invalid
          + (secs.map (fun s => (s.2.filter chainEligible).length - 1)).sum := by
  induction secs with
  | nil => intro acc; simp
  | cons p ps ih =>
    intro acc
    simp only [List.foldl_cons, List.map_cons, List.sum_cons]
    rw [ih, chainSection_count]
    omega

/-- C5 (amended). Balance-chain validation counts, over the sections of the
partition, one check per consecutive pair of eligible (credit/debit with
known balance) transactions; `total_checked = valid + invalid`; the reported
percentage is `100·valid/total_checked` rounded to one decimal (100 when
nothing was checked); and at most 20 breaks are recorded. -/
theorem c5_chain_accuracy (txns : List ETxn) :
    (validate_balance_chain txns).total_checked
        = (validate_balance_chain txns).valid + (validate_balance_chain txns).invalid ∧
      (validate_balance_chain txns).chain_accuracy_pct
        = (if (validate_balance_chain txns).total_checked = 0 then 100
            else pyRound1 (((validate_balance_chain txns).valid : ℚ)
              / ((validate_balance_chain txns).total_checked : ℚ) * 100)) ∧
      (validate_balance_chain txns).breaks.length ≤ 20 ∧
      (validate_balance_chain txns).total_checked
        = ((sectionsOf txns).map (fun s => (s.2.filter chainEligible).length - 1)).sum := by
  unfold validate_balance_chain
  dsimp only
  refine ⟨rfl, ?_, ?_, ?_⟩
  · by_cases h : ((sectionsOf txns).foldl chainSection {}).valid
        + ((sectionsOf txns).foldl chainSection {}).invalid = 0
    · simp [h]
    · simp only [h, Nat.pos_of_ne_zero h, if_true, if_false]
  · exact foldl_chainSection_breaks_le _ _ (by simp)
  · simpa using foldl_chainSection_count (sectionsOf txns) {}

/-- The concrete transaction list refuting the exact-ratio reading of the
chain-soundness equation: one valid and two invalid consecutive pairs. -/
def chainCexTxns : List ETxn :=
  [{ transaction_type := "credit", balance := some 0 },
   { transaction_type := "credit", deposit := some 10, balance := some 10 },
   { transaction_type := "credit", deposit := some 5, balance := some 20 },
   { transaction_type := "credit", deposit := some 5, balance := some 30 }]

/-- C5 (counterexample). On a list with 1 valid and 2 invalid pairs the
reported percentage is the rounded 33.3, so
`valid/checked = chain_accuracy_pct/100` fails. -/
theorem c5_counterexample :
    (validate_balance_chain chainCexTxns).valid = 1 ∧
      (validate_balance_chain chainCexTxns).total_checked = 3 ∧
      (validate_balance_chain chainCexTxns).chain_accuracy_pct = 333/10 ∧
      ¬ (((validate_balance_chain chainCexTxns).valid : ℚ)
            / ((validate_balance_chain chainCexTxns).total_checked : ℚ)
          = (validate_balance_chain chainCexTxns).chain_accuracy_pct / 100) := by
  norm_num +decide [validate_balance_chain, sectionsOf, splitSections, splitSectionsGo,
    tagSections, chainSection, chainPairs, chainPairStep, chainEligible, ETxn.amtOf, pyOrQ,
    pyRound2, pyRound1, roundHalfEven, pyOrOptS, pyOrS, chainCexTxns, List.filter, List.any,
    List.enum, List.foldl, round_eq, Int.fract]

/-! ## Accuracy scoring (`_compute_accuracy_score`, extraction.py:1726-1814) -/

/-- One entry of the score breakdown. -/
structure ScoreEntry where
  value : ℚ
  weight : ℚ
  deriving Repr, DecidableEq

/-- The dictionary returned by `_compute_accuracy_score` (the breakdown keys
are fields; the verbatim copy of the chain detail is left out). -/
structure AccuracyScore where
  overall_score : ℚ
  grade : String
  balance_chain : ScoreEntry
  opening_closing_present : ScoreEntry
  accounting_equation : ScoreEntry
  completeness : ScoreEntry
  balance_completeness : ScoreEntry
  deriving Repr, DecidableEq

/-- Python falsiness of an optional number: absent or zero. -/
def isFalsyQ (a : Option ℚ) : Bool := a == none || a == some 0

/-- The letter grade thresholds of `_compute_accuracy_score`. -/
def gradeOf (overall : ℚ) : String :=
  if 95 ≤ overall then "A+"
  else if 90 ≤ overall then "A"
  else if 80 ≤ overall then "B"
  else if 70 ≤ overall then "C"
  else if 50 ≤ overall then "D"
  else "F"

/-- Signal 2 of `_compute_accuracy_score`: opening/closing presence. -/
def ob_score (opening closing : Option ℚ) : ℚ :=
  if opening.isSome ∧ closing.isSome then 100
  else if opening.isSome ∨ closing.isSome then 50 else 0

/-- Signal 3 of `_compute_accuracy_score`: the accounting-equation score
(before the 1-decimal rounding applied when it is stored). -/
def accounting_equation_score (opening closing : Option ℚ)
    (totalCredits totalDebits : ℚ) (chainPct : ℚ) : ℚ :=
  if (999 : ℚ)/10 ≤ chainPct then 100
  else
    match opening, closing with
    | some o, some c =>
      min 100 (max 0
        (100 - |pyRound2 (o + totalCredits - totalDebits) - c| / max |c| 1 * 100 / (5/100)))
    | _, _ => 50

/-- The credit/debit transactions (`actual_txns` in the source). -/
def actual_txns (txns : List ETxn) : List ETxn :=
  txns.filter (fun t => t.transaction_type == "credit" || t.transaction_type == "debit")

/-- Percentage of credit/debit transactions missing both amounts. -/
def missing_amount_pct (txns : List ETxn) : ℚ :=
  (((actual_txns txns).filter (fun t => isFalsyQ t.withdrawal && isFalsyQ t.deposit)).length : ℚ)
    / ((max (actual_txns txns).length 1 : ℕ) : ℚ) * 100

/-- Percentage of credit/debit transactions with an unknown balance. -/
def null_balance_pct (txns : List ETxn) : ℚ :=
  (((actual_txns txns).filter (fun t => t.balance.isNone)).length : ℚ)
    / ((max (actual_txns txns).length 1 : ℕ) : ℚ) * 100

/-- The five weighted entries of the score breakdown, in source order. -/
def accuracy_entries (txns : List ETxn) (opening closing : Option ℚ)
    (totalCredits totalDebits : ℚ) (chainPct : ℚ) : List ScoreEntry :=
  [⟨chainPct, 40⟩,
   ⟨ob_score opening closing, 20⟩,
   ⟨pyRound1 (accounting_equation_score opening closing totalCredits totalDebits chainPct), 20⟩,
   ⟨pyRound1 (max 0 (100 - missing_amount_pct txns * 5)), 10⟩,
   ⟨pyRound1 (max 0 (100 - null_balance_pct txns * 5)), 10⟩]

/-- The overall score: weighted average of the stored entry values, rounded
to one decimal (0 when the total weight is 0, which never happens here). -/
def overall_value (txns : List ETxn) (opening closing : Option ℚ)
    (totalCredits totalDebits : ℚ) (chainPct : ℚ) : ℚ :=
  let entries := accuracy_entries txns opening closing totalCredits totalDebits chainPct
  let totalWeight := (entries.map (·.weight)).sum
  if 0 < totalWeight then
    pyRound1 (((entries.map (fun e => e.value * e.weight)).sum) / totalWeight)
  else 0

/-- `_compute_accuracy_score` (extraction.py:1726-1814), as a function of the
transaction list, the opening/closing balances and credit/debit totals from
the metrics dictionary, and the balance-chain accuracy percentage. -/
def compute_accuracy_score (txns : List ETxn) (opening closing : Option ℚ)
    (totalCredits totalDebits : ℚ) (chainPct : ℚ) : AccuracyScore :=
  { overall_score := overall_value txns opening closing totalCredits totalDebits chainPct,
    grade := gradeOf (overall_value txns opening closing totalCredits totalDebits chainPct),
    balance_chain := ⟨chainPct, 40⟩,
    opening_closing_present := ⟨ob_score opening closing, 20⟩,
    accounting_equation :=
      ⟨pyRound1 (accounting_equation_score opening closing totalCredits totalDebits chainPct), 20⟩,
    completeness := ⟨pyRound1 (max 0 (100 - missing_amount_pct txns * 5)), 10⟩,
    balance_completeness := ⟨pyRound1 (max 0 (100 - null_balance_pct txns * 5)), 10⟩ }

/-- The relative error exactly as the claim words it:
`|opening+credits−debits−closing| / max(|closing|, 1)`. -/
def claim_relative_error (o c totalCredits totalDebits : ℚ) : ℚ :=
  |o + totalCredits - totalDebits - c| / max |c| 1

/-- The accounting-equation component exactly as the claim words it. -/
def claim_eq_score (opening closing : Option ℚ)
    (totalCredits totalDebits chainPct : ℚ) : ℚ :=
  if (999 : ℚ)/10 ≤ chainPct then 100
  else
    match opening, closing with
    | some o, some c => max 0 (100 - claim_relative_error o c totalCredits totalDebits * 2000)
    | _, _ => 50

/-- The overall score exactly as the claim words it: plain weighted average,
no clamping of the completeness components, no rounding. -/
def claim_overall (txns : List ETxn) (opening closing : Option ℚ)
    (totalCredits totalDebits chainPct : ℚ) : ℚ :=
  (40 * chainPct + 20 * ob_score opening closing
    + 20 * claim_eq_score opening closing totalCredits totalDebits chainPct
    + 10 * (100 - 5 * missing_amount_pct txns)
    + 10 * (100 - 5 * null_balance_pct txns)) / 100

/-- The accuracy score and grade exactly as the claim words them. -/
def accuracy_claim (txns : List ETxn) (opening closing : Option ℚ)
    (totalCredits totalDebits chainPct : ℚ) : ℚ × String :=
  (claim_overall txns opening closing totalCredits totalDebits chainPct,
    gradeOf (claim_overall txns opening closing totalCredits totalDebits chainPct))

/-- A single credit transaction with no amounts and no balance: both
completeness percentages are 100, which drives the claim formula negative
while the code clamps at 0. -/
def accCex6Txns : List ETxn := [{ transaction_type := "credit" }]

/-- C6 (counterexample). On one credit transaction with no amounts and no
balance the code scores 60 (grade D) while the claim formula yields −20
(grade F): the claim omits the `max(0, ·)` clamps on the completeness
components (and the roundings). -/
theorem c6_counterexample :
    (compute_accuracy_score accCex6Txns none none 0 0 100).overall_score = 60 ∧
      (compute_accuracy_score accCex6Txns none none 0 0 100).grade = "D" ∧
      accuracy_claim accCex6Txns none none 0 0 100 = (-20, "F") ∧
      ¬ ((compute_accuracy_score accCex6Txns none none 0 0 100).overall_score
          = (accuracy_claim accCex6Txns none none 0 0 100).1) := by
  have hm : missing_amount_pct accCex6Txns = 100 := by
    norm_num [missing_amount_pct, actual_txns, accCex6Txns, isFalsyQ]
  have hn : null_balance_pct accCex6Txns = 100 := by
    norm_num [null_balance_pct, actual_txns, accCex6Txns]
  have hov : overall_value accCex6Txns none none 0 0 100 = 60 := by
    rw [overall_value, accuracy_entries, hm, hn]
    norm_num [ob_score, accounting_equation_score, pyRound1, roundHalfEven, round_eq, Int.fract]
  have hcov : claim_overall accCex6Txns none none 0 0 100 = -20 := by
    rw [claim_overall, hm, hn]
    norm_num [ob_score, claim_eq_score]
  have hclaim : accuracy_claim accCex6Txns none none 0 0 100 = (-20, "F") := by
    rw [accuracy_claim, hcov]
    norm_num [gradeOf]
  refine ⟨?_, ?_, hclaim, ?_⟩
  · show overall_value accCex6Txns none none 0 0 100 = 60
    exact hov
  · show gradeOf (overall_value accCex6Txns none none 0 0 100) = "D"
    rw [hov]; norm_num [gradeOf]
  · show ¬ (overall_value accCex6Txns none none 0 0 100
        = (accuracy_claim accCex6Txns none none 0 0 100).1)
    rw [hov, hclaim]; norm_num

theorem eq_component_norm (rel : ℚ) (h : 0 ≤ rel) :
    min 100 (max 0 (100 - rel * 100 / (5/100))) = max 0 (100 - rel * 2000) := by
  have h1 : rel * 100 / (5/100) = rel * 2000 := by ring
  rw [h1]
  refine min_eq_right (max_le (by norm_num) ?_)
  nlinarith

theorem rel_nonneg (x c : ℚ) : 0 ≤ |x| / max |c| 1 :=
  div_nonneg (abs_nonneg _) (le_trans zero_le_one (le_max_right _ 1))

/-- The amended accounting-equation component: the claim formula with the
expected closing rounded to 2 decimals, as in the source. -/
def spec_eq_score (opening closing : Option ℚ)
    (totalCredits totalDebits chainPct : ℚ) : ℚ :=
  if (999 : ℚ)/10 ≤ chainPct then 100
  else
    match opening, closing with
    | some o, some c =>
      max 0 (100 - |pyRound2 (o + totalCredits - totalDebits) - c| / max |c| 1 * 2000)
    | _, _ => 50

/-- The code's accounting-equation score equals the amended claim's
`max(0, 100 − relative_error·2000)` form: the source's `min 100` is
redundant because the relative error is non-negative. -/
theorem accounting_equation_eq_claim (opening closing : Option ℚ)
    (totalCredits totalDebits chainPct : ℚ) :
    accounting_equation_score opening closing totalCredits totalDebits chainPct
      = spec_eq_score opening closing totalCredits totalDebits chainPct := by
  unfold accounting_equation_score spec_eq_score
  rcases opening with _ | o <;> rcases closing with _ | c <;> split_ifs <;>
    first
      | rfl
      | exact eq_component_norm _ (rel_nonneg _ _)

/-- The overall score of the claim as amended: the same weighted average,
with the completeness components clamped below at 0 and the code's
roundings (each stored component and the overall average to 1 decimal). -/
def spec_overall (txns : List ETxn) (opening closing : Option ℚ)
    (totalCredits totalDebits chainPct : ℚ) : ℚ :=
  pyRound1 ((40 * chainPct + 20 * ob_score opening closing
    + 20 * pyRound1 (spec_eq_score opening closing totalCredits totalDebits chainPct)
    + 10 * pyRound1 (max 0 (100 - 5 * missing_amount_pct txns))
    + 10 * pyRound1 (max 0 (100 - 5 * null_balance_pct txns))) / 100)

/-- The claim as amended: score and grade. -/
def accuracy_spec_amended (txns : List ETxn) (opening closing : Option ℚ)
    (totalCredits totalDebits chainPct : ℚ) : ℚ × String :=
  (spec_overall txns opening closing totalCredits totalDebits chainPct,
    gradeOf (spec_overall txns opening closing totalCredits totalDebits chainPct))

/-- C6 (amended). The extraction accuracy score is the 40/20/20/10/10
weighted average of the five signals with the clamps and roundings of the
source, and the grade is the stated letter scale applied to it. -/
theorem c6_accuracy_score (txns : List ETxn) (opening closing : Option ℚ)
    (totalCredits totalDebits chainPct : ℚ) :
    (compute_accuracy_score txns opening closing totalCredits totalDebits chainPct).overall_score
        = (accuracy_spec_amended txns opening closing totalCredits totalDebits chainPct).1 ∧
      (compute_accuracy_score txns opening closing totalCredits totalDebits chainPct).grade
        = (accuracy_spec_amended txns opening closing totalCredits totalDebits chainPct).2 := by
  have hclamp : ∀ x : ℚ, max 0 (100 - x * 5) = max 0 (100 - 5 * x) := fun x =>
    congrArg (max 0) (by ring)
  have hmain : overall_value txns opening closing totalCredits totalDebits chainPct
      = spec_overall txns opening closing totalCredits totalDebits chainPct := by
    rw [overall_value, accuracy_entries, spec_overall]
    simp only [List.map_cons, List.map_nil, List.sum_cons, List.sum_nil, add_zero]
    rw [if_pos (by norm_num : (0:ℚ) < 40 + (20 + (20 + (10 + 10))))]
    rw [accounting_equation_eq_claim, hclamp, hclamp]
    congr 1
    ring
  exact ⟨hmain, congrArg gradeOf hmain⟩

/-! ## Categorisation and persisted transactions
(`_categorize_transaction`, `_is_cash_transaction`, `_is_cheque_transaction`,
`_store_transactions` in extraction.py) -/

/-- `_categorize_transaction` (extraction.py:1818-1877).  The `channel`
argument is accepted and unused, exactly as in the source. -/
def categorize_transaction (description : String) (channel : String) : String :=
  let d := pyUpper description
  if ["SALARY", "PAYROLL", "WAGES", "CPF", "CPF CONTRIBUTION"].any (containsSub d) then
    "salary_payroll"
  else if ["RENT", "LEASE", "TENANCY", "PROPERTY"].any (containsSub d) then "rent"
  else if ["SP SERVICES", "SINGTEL", "STARHUB", "M1", "UTILITIES", "POWER SUPPLY",
      "TOWN COUNCIL", "PUB ", "WATER", "ELECTRICITY", "SIMBA TELECOM"].any (containsSub d) then
    "utilities"
  else if ["FOOD", "RESTAURANT", "CAFE", "COFFEE", "MCDONALD", "DELIVEROO", "GRAB FOOD",
      "FOODPANDA", "KFC", "SUBWAY", "STARBUCKS", "TOAST BOX", "YA KUN", "BAKERY",
      "ESPRESSO", "KOPITIAM", "HAWKER"].any (containsSub d) then "food_beverage"
  else if ["TAXI", "GRAB ", "GOJEK", "COMFORTDELGRO", "CDG ENGIE", "CDG EGIE",
      "TRANSIT", "EZ-LINK", "LTA", "PARKING", "SBS TRANSIT", "SMRT"].any (containsSub d) then
    "transport"
  else if ["CARDUP", "SUPPLIER", "INVOICE", "VENDOR", "PURCHASE ORDER"].any (containsSub d) then
    "supplier_payment"
  else if ["ADYEN", "STRIPE", "PAYNOW", "COLLECTION", "REVENUE", "SALES",
      "PAYMENT RECEIVED", "CUSTOMER PAYMENT"].any (containsSub d) then "revenue"
  else if ["LOAN", "MORTGAGE", "FINANCING", "EMI", "INSTALMENT"].any (containsSub d) then "loan"
  else if ["IRAS", "GST", "TAX", "ACRA", "GOVERNMENT", "CUSTOMS"].any (containsSub d) then
    "tax_government"
  else if ["INSURANCE", "AIA", "PRUDENTIAL", "GREAT EASTERN", "NTUC INCOME"].any
      (containsSub d) then "insurance"
  else if ["BANK CHARGE", "SERVICE CHARGE", "FEE", "INTEREST", "LATE CHARGE",
      "ANNUAL FEE", "COMM ON"].any (containsSub d) then "fees_charges"
  else if ["TRANSFER", "TRF", "IBG", "REMITTANCE", "TELEGRAPHIC"].any (containsSub d) then
    "transfer"
  else if containsSub d "DEBIT PURCHASE" || containsSub d "DEBIT PURC" || containsSub d "VISA" then
    "purchase"
  else "other"

/-- `_is_cash_transaction` (extraction.py:1879-1884). -/
def is_cash_transaction (description : String) : Bool :=
  ["CASH DEPOSIT", "CASH WITHDRAWAL", "ATM WITHDRAWAL", "ATM DEPOSIT",
   "CDM", "CASH DEP", "ATM"].any (containsSub (pyUpper description))

/-- `_is_cheque_transaction` (extraction.py:1886-1889). -/
def is_cheque_transaction (description : String) : Bool :=
  ["CHEQUE", "CHQ", "CHEQUE DEPOSIT", "CHEQUE WITHDRAWAL"].any
    (containsSub (pyUpper description))

/-- A persisted `RawTransaction` row (models.py:91-118).  `raw_text` keeps
the source dictionary itself in place of its JSON serialisation;
`created_at` and the generated primary key are not modelled. -/
structure RawTx where
  document_id : ℕ
  upload_group_id : Option ℕ
  date : Option String
  description : String
  transaction_type : String
  amount : Option ℚ
  balance : Option ℚ
  reference : Option String
  category : String
  counterparty : Option String
  channel : String
  is_cash : Bool
  is_cheque : Bool
  currency : String
  page_number : Option ℕ
  raw_text : ETxn
  deriving Repr, DecidableEq

/-- The `RawTransaction(...)` constructor call of `_store_transactions`
(extraction.py:2307-2325), field by field. -/
def toRawTx (docId : ℕ) (groupId : Option ℕ) (t : ETxn) : RawTx :=
  { document_id := docId,
    upload_group_id := groupId,
    date := pyOrOptS t.value_date t.transaction_date,
    description := t.description.getD "",
    transaction_type := t.transaction_type,
    amount := pyOrOptQ t.withdrawal t.deposit,
    balance := t.balance,
    reference := t.reference,
    category := categorize_transaction (t.description.getD "") (t.channel.getD ""),
    counterparty := t.counterparty,
    channel := t.channel.getD "",
    is_cash := is_cash_transaction (t.description.getD ""),
    is_cheque := is_cheque_transaction (t.description.getD ""),
    currency := t.currency.getD "SGD",
    page_number := t.page_number,
    raw_text := t }

/-- A transaction is persisted unless it is an opening/closing marker. -/
def isPersistedType (t : ETxn) : Bool :=
  ¬ (t.transaction_type = "opening_balance" ∨ t.transaction_type = "closing_balance")

/-! ## The store (models.py) and the orchestrator (orchestrator.py)

The store holds the tables the pipeline touches.  Agent-result payloads are
a type parameter `R` (they are opaque JSON to the orchestrator).  Python
`datetime.now(timezone.utc)` is modelled by a monotone counter `clock`
threaded through the store. -/

/-- `AgentType` (models.py:21-26). -/
inductive AgentType where
  | layout | extraction | insights | tampering | fraud
  deriving Repr, DecidableEq

/-- `AgentStatus` (models.py:29-33). -/
inductive AgentStatus where
  | pending | running | completed | failed
  deriving Repr, DecidableEq

/-- `DocumentStatus` (models.py:14-18). -/
inductive DocStatus where
  | uploaded | processing | completed | failed
  deriving Repr, DecidableEq

/-- What an agent `run` returns: `{results, summary, risk_level}`. -/
structure AgentOutput (R : Type) where
  results : R
  summary : String
  risk_level : String
  deriving Repr, DecidableEq

/-- An `AgentResult` row (models.py:222-242). -/
structure AgentRec (R : Type) where
  document_id : ℕ
  upload_group_id : Option ℕ
  agent_type : AgentType
  status : AgentStatus := .pending
  results : Option R := none
  summary : Option String := none
  risk_level : Option String := none
  started_at : Option ℕ := none
  completed_at : Option ℕ := none
  error_message : Option String := none
  deriving Repr, DecidableEq

/-- A `GroupAgentResult` row (models.py:245-262). -/
structure GroupRec (R : Type) where
  upload_group_id : ℕ
  agent_type : AgentType
  status : AgentStatus := .pending
  results : Option R := none
  summary : Option String := none
  risk_level : Option String := none
  started_at : Option ℕ := none
  completed_at : Option ℕ := none
  error_message : Option String := none
  deriving Repr, DecidableEq

/-- A `Document` row, restricted to the fields the orchestrator reads. -/
structure DocRec where
  id : ℕ
  upload_group_id : Option ℕ
  status : DocStatus := .uploaded
  deriving Repr, DecidableEq

/-- A `StatementMetrics` row, restricted to the columns the verified
properties read (the cash-activity figures used by the fraud agent). -/
structure SMetrics where
  document_id : ℕ
  upload_group_id : Option ℕ := none
  total_no_of_cash_deposits : Option ℕ := none
  total_amount_of_cash_deposits : Option ℚ := none
  total_no_of_cash_withdrawals : Option ℕ := none
  total_amount_of_cash_withdrawals : Option ℚ := none
  deriving Repr, DecidableEq

/-- An `AggregatedMetrics` row; its payload columns are not read by any
verified property, only the row's existence and identity matter. -/
structure AggRow where
  upload_group_id : ℕ
  deriving Repr, DecidableEq

/-- The store: every table the pipeline touches, plus the clock. -/
structure Store (R : Type) where
  docs : List DocRec := []
  agent_results : List (AgentRec R) := []
  group_results : List (GroupRec R) := []
  raw_transactions : List RawTx := []
  statement_metrics : List SMetrics := []
  aggregated_metrics : List AggRow := []
  clock : ℕ := 0
  deriving Repr, DecidableEq

/-- `ExtractionAgent._store_transactions` (extraction.py:2299-2329): delete
every `RawTransaction` of the document, then insert one row per transaction
whose type is not an opening/closing marker. -/
def store_transactions (docId : ℕ) (groupId : Option ℕ) (txns : List ETxn)
    (s : Store R) : Store R :=
  { s with raw_transactions :=
      s.raw_transactions.filter (fun r => r.document_id ≠ docId)
        ++ (txns.filter isPersistedType).map (toRawTx docId groupId) }

/-- C10. After `_store_transactions`, the persisted rows of the document are
exactly the current run's non-marker transactions (independently of whatever
rows existed before, so repeated extraction never accumulates rows), and
rows of other documents are untouched. -/
theorem c10_store_transactions (R : Type) (docId : ℕ) (groupId : Option ℕ)
    (txns : List ETxn) (s : Store R) :
    ((store_transactions docId groupId txns s).raw_transactions.filter
        (fun r => r.document_id = docId))
      = (txns.filter
          (fun t => ¬ (t.transaction_type = "opening_balance"
            ∨ t.transaction_type = "closing_balance"))).map (toRawTx docId groupId) ∧
      ((store_transactions docId groupId txns s).raw_transactions.filter
          (fun r => r.document_id ≠ docId))
        = s.raw_transactions.filter (fun r => r.document_id ≠ docId) := by
  constructor
  · show ((s.raw_transactions.filter (fun r => r.document_id ≠ docId)
        ++ (txns.filter isPersistedType).map (toRawTx docId groupId)).filter
          (fun r => r.document_id = docId)) = _
    rw [List.filter_append]
    have h1 : (s.raw_transactions.filter (fun r => r.document_id ≠ docId)).filter
        (fun r => r.document_id = docId) = [] := by
      rw [List.filter_filter]
      apply List.filter_eq_nil_iff.mpr
      intro r _
      simp
    have h2 : ((txns.filter isPersistedType).map (toRawTx docId groupId)).filter
        (fun r => r.document_id = docId)
          = (txns.filter isPersistedType).map (toRawTx docId groupId) := by
      apply List.filter_eq_self.mpr
      intro r hr
      obtain ⟨t, _, rfl⟩ := List.mem_map.mp hr
      simp [toRawTx]
    rw [h1, h2, List.nil_append]
    rfl
  · show ((s.raw_transactions.filter (fun r => r.document_id ≠ docId)
        ++ (txns.filter isPersistedType).map (toRawTx docId groupId)).filter
          (fun r => r.document_id ≠ docId)) = _
    rw [List.filter_append]
    have h1 : (s.raw_transactions.filter (fun r => r.document_id ≠ docId)).filter
        (fun r => r.document_id ≠ docId)
          = s.raw_transactions.filter (fun r => r.document_id ≠ docId) := by
      rw [List.filter_filter]
      apply List.filter_congr
      intro r _
      simp
    have h2 : ((txns.filter isPersistedType).map (toRawTx docId groupId)).filter
        (fun r => r.document_id ≠ docId) = [] := by
      apply List.filter_eq_nil_iff.mpr
      intro r hr
      obtain ⟨t, _, rfl⟩ := List.mem_map.mp hr
      simp [toRawTx]
    rw [h1, h2, List.append_nil]

/-! ## Fraud agent (backend/agents/fraud.py)

The free-text `details` strings and the flagged item payloads of the check
dictionaries are elided: each check is modelled by its `check` name and its
`status`, which is all the risk roll-up and the verified properties read. -/

/-- One fraud check result: `{check, status}`. -/
structure FraudCheck where
  check : String
  status : String
  deriving Repr, DecidableEq

/-- `_parse_day` (fraud.py:50-63): a leading 1-2 digit day followed by `-`
or `/`, else the first whitespace token when it is all digits. -/
def parse_day (dateStr : Option String) : Option ℕ :=
  match dateStr with
  | none => none
  | some s =>
    if s = "" then none
    else
      let s := pyStrip s
      let fallback : Option ℕ :=
        match pySplitWs s with
        | [] => none
        | p :: _ => pyParseNat p
      match s.toList with
      | c1 :: c2 :: rest =>
        if c1.isDigit ∧ (c2 = '-' ∨ c2 = '/') then some (c1.toNat - 48)
        else if c1.isDigit ∧ c2.isDigit ∧ (rest.head? = some '-' ∨ rest.head? = some '/') then
          some ((c1.toNat - 48) * 10 + (c2.toNat - 48))
        else fallback
      | _ => fallback

/-- `_date_key` (fraud.py:66-70): upper-case, whitespace collapsed. -/
def date_key (dateStr : Option String) : String :=
  match dateStr with
  | none => ""
  | some s =>
    if s = "" then ""
    else " ".intercalate (pySplitWs (pyUpper (pyStrip s)))

/-- Check 1, `check_round_amounts` (fraud.py:75-97): amounts ≥ 5000 and
divisible by 1000 (`(a/1000).den = 1` renders the float test
`amt % 1000 == 0`). -/
def check_round_amounts (txns : List RawTx) : FraudCheck :=
  let flagged := txns.filter (fun t =>
    let a := pyOrQ t.amount 0
    5000 ≤ a ∧ (a / 1000).den = 1)
  if flagged.isEmpty then ⟨"Round-Amount Transactions", "pass"⟩
  else ⟨"Round-Amount Transactions", if 5 ≤ flagged.length then "fail" else "warning"⟩

/-- The duplicate-detection key of check 2:
`date_key | amount (2dp) | counterparty[:30] upper-case`. -/
def dup_key (t : RawTx) : String :=
  date_key t.date ++ "|" ++ fmt2 (pyOrQ t.amount 0) ++ "|"
    ++ pyTake (pyUpper (pyOrS t.counterparty "")) 30

/-- Check 2, `check_duplicates` (fraud.py:100-129): groups of ≥ 2 equal keys;
fail when the flagged groups cover ≥ 6 transactions. -/
def check_duplicates (txns : List RawTx) : FraudCheck :=
  let keys := txns.map dup_key
  let dupKeys := keys.dedup.filter (fun k => 2 ≤ keys.count k)
  if dupKeys.isEmpty then ⟨"Duplicate / Near-Duplicate Transactions", "pass"⟩
  else
    ⟨"Duplicate / Near-Duplicate Transactions",
      if 6 ≤ (dupKeys.map (fun k => keys.count k)).sum then "fail" else "warning"⟩

/-- Check 3, `check_rapid_succession` (fraud.py:132-153): any day (non-empty
date key) with ≥ 10 transactions is a warning. -/
def check_rapid_succession (txns : List RawTx) : FraudCheck :=
  let dayKeys := txns.filterMap (fun t =>
    let dk := date_key t.date
    if dk = "" then none else some dk)
  let busy := dayKeys.dedup.filter (fun k => 10 ≤ dayKeys.count k)
  ⟨"Rapid Succession Transactions", if busy.isEmpty then "pass" else "warning"⟩

/-- Check 4, `check_large_outliers` (fraud.py:156-192): amounts above
`mean + 3·stdev` (sample standard deviation) over the positive amounts;
needs ≥ 5 of them.  `amt > mean + 3·σ` is rendered by squaring:
`0 < amt − mean` and `9·variance < (amt − mean)²`. -/
def check_large_outliers (txns : List RawTx) : FraudCheck :=
  let amounts := txns.filterMap (fun t =>
    match t.amount with
    | some a => if 0 < a then some a else none
    | none => none)
  if amounts.length < 5 then ⟨"Large Outlier Transactions", "pass"⟩
  else
    let n : ℚ := (amounts.length : ℚ)
    let mean := amounts.sum / n
    let varSample := ((amounts.map (fun a => (a - mean) ^ 2)).sum) / (n - 1)
    let flagged := txns.filter (fun t =>
      let d := pyOrQ t.amount 0 - mean
      0 < d ∧ 9 * varSample < d ^ 2)
    if flagged.isEmpty then ⟨"Large Outlier Transactions", "pass"⟩
    else ⟨"Large Outlier Transactions", if 3 ≤ flagged.length then "fail" else "warning"⟩

/-- Check 5, `check_balance_anomalies` (fraud.py:195-232): consecutive known
balances (needs ≥ 3) whose swing exceeds half the maximal absolute balance
and 10000. -/
def check_balance_anomalies (txns : List RawTx) : FraudCheck :=
  let balances := txns.filterMap (fun t => t.balance)
  if balances.length < 3 then ⟨"Balance Anomalies", "pass"⟩
  else
    let maxBal0 := (balances.map (fun b => |b|)).foldl max 0
    let maxBal := if maxBal0 = 0 then 1 else maxBal0
    let flagged := (balances.zip balances.tail).filter (fun pc =>
      1/2 * maxBal < |pc.2 - pc.1| ∧ 10000 < |pc.2 - pc.1|)
    if flagged.isEmpty then ⟨"Balance Anomalies", "pass"⟩
    else ⟨"Balance Anomalies", if 3 ≤ flagged.length then "fail" else "warning"⟩

/-- Check 6, `check_cash_heavy` (fraud.py:235-277): cash volume over total
credit+debit volume; < 0.30 passes, > 0.5 fails, otherwise warning.  Cash
figures come from the metrics row when present, else from the `is_cash`
transactions. -/
def check_cash_heavy (txns : List RawTx) (metrics : Option SMetrics) : FraudCheck :=
  let totalCredits :=
    ((txns.filter (fun t => t.transaction_type = "credit")).map (fun t => pyOrQ t.amount 0)).sum
  let totalDebits :=
    ((txns.filter (fun t => t.transaction_type = "debit")).map (fun t => pyOrQ t.amount 0)).sum
  let volume := totalCredits + totalDebits
  let cashDeposits : ℚ :=
    match metrics with
    | some m => pyOrQ m.total_amount_of_cash_deposits 0
    | none =>
      ((txns.filter (fun t => t.is_cash ∧ t.transaction_type = "credit")).map
        (fun t => pyOrQ t.amount 0)).sum
  let cashWithdrawals : ℚ :=
    match metrics with
    | some m => pyOrQ m.total_amount_of_cash_withdrawals 0
    | none =>
      ((txns.filter (fun t => t.is_cash ∧ t.transaction_type ≠ "credit")).map
        (fun t => pyOrQ t.amount 0)).sum
  let ratio := if 0 < volume then (cashDeposits + cashWithdrawals) / volume else 0
  if ratio < 3/10 then ⟨"Cash-Heavy Activity", "pass"⟩
  else ⟨"Cash-Heavy Activity", if 1/2 < ratio then "fail" else "warning"⟩

/-- Check 7, `check_timing_patterns` (fraud.py:280-313): share of dated
transactions on days {1,2,3,28,29,30,31}; needs ≥ 10 dated transactions,
warns above 60%. -/
def check_timing_patterns (txns : List RawTx) : FraudCheck :=
  let days := txns.filterMap (fun t => parse_day t.date)
  let edge := (days.filter (fun d => d ∈ [1, 2, 3, 28, 29, 30, 31])).length
  let mid := (days.filter (fun d => d ∉ [1, 2, 3, 28, 29, 30, 31])).length
  if edge + mid < 10 then ⟨"Unusual Timing Patterns", "pass"⟩
  else if (edge : ℚ) / ((edge + mid : ℕ) : ℚ) ≤ 3/5 then ⟨"Unusual Timing Patterns", "pass"⟩
  else ⟨"Unusual Timing Patterns", "warning"⟩

/-- `(t.counterparty or t.description or "").strip()` of check 8. -/
def cp_of (t : RawTx) : String := pyStrip (pyOrS t.counterparty t.description)

/-- Check 8, `check_counterparty_risk` (fraud.py:316-377).  The LLM call is
an oracle: `.ok st` is a successful call whose parsed JSON carries status
`st` (defaults already applied), `.error` is any exception, which the source
converts to a warning.  When no counterparty string of length ≥ 3 exists the
check passes without consulting the model. -/
def check_counterparty_risk (oracle : Except String String) (txns : List RawTx) : FraudCheck :=
  if txns.all (fun t => (cp_of t).length < 3) then ⟨"Counterparty Risk Assessment", "pass"⟩
  else
    ⟨"Counterparty Risk Assessment",
      match oracle with
      | .ok st => st
      | .error _ => "warning"⟩

/-- Number of checks with the given status. -/
def count_status (checks : List FraudCheck) (st : String) : ℕ :=
  (checks.filter (fun c => c.status = st)).length

/-- The risk level of `_compute_risk` (fraud.py:395-404). -/
def risk_level_of (checks : List FraudCheck) : String :=
  if 4 ≤ count_status checks "fail" then "critical"
  else if 2 ≤ count_status checks "fail" then "high"
  else if 1 ≤ count_status checks "fail" ∨ 3 ≤ count_status checks "warning" then "medium"
  else if 1 ≤ count_status checks "warning" then "low"
  else "low"

/-- The risk score of `_compute_risk`: `3·fails + warnings`. -/
def risk_score_of (checks : List FraudCheck) : ℕ :=
  count_status checks "fail" * 3 + count_status checks "warning" * 1

/-- The summary text of `_compute_risk` (fraud.py:406-415). -/
def fraud_summary_of (checks : List FraudCheck) : String :=
  let parts := [toString (count_status checks "pass") ++ "/" ++ toString checks.length
      ++ " checks passed"]
    ++ (if count_status checks "fail" ≠ 0 then
        [toString (count_status checks "fail") ++ " failed: "
          ++ String.intercalate ", "
            (((checks.filter (fun c => c.status = "fail")).map (fun c => c.check)))]
      else [])
    ++ (if count_status checks "warning" ≠ 0 then
        [toString (count_status checks "warning") ++ " warnings: "
          ++ String.intercalate ", "
            (((checks.filter (fun c => c.status = "warning")).map (fun c => c.check)))]
      else [])
  String.intercalate ". " parts ++ "."

/-- The eight checks of `FraudAgent.run`, in source order (fraud.py:461-475). -/
def fraud_checks (oracle : Except String String) (txns : List RawTx)
    (metrics : Option SMetrics) : List FraudCheck :=
  [check_round_amounts txns, check_duplicates txns, check_rapid_succession txns,
   check_large_outliers txns, check_balance_anomalies txns, check_cash_heavy txns metrics,
   check_timing_patterns txns, check_counterparty_risk oracle txns]

/-- The three result-dictionary shapes `FraudAgent.run` can produce. -/
inductive FraudResults where
  | docError (msg : String)
  | noData
  | analysis (checks : List FraudCheck)
      (risk_score pass_count fail_count warning_count total_checks : ℕ)
  deriving Repr, DecidableEq

/-- The `{results, summary, risk_level}` dictionary of `FraudAgent.run`. -/
structure FraudOutput where
  results : FraudResults
  summary : String
  risk_level : String
  deriving Repr, DecidableEq

/-- `FraudAgent.run` (fraud.py:427-493), as a function of the document
lookup outcome, the document's persisted transactions and metrics row, and
the counterparty-risk oracle. -/
def fraud_agent_run (oracle : Except String String) (docExists : Bool)
    (txns : List RawTx) (metrics : Option SMetrics) : FraudOutput :=
  if ¬docExists then
    ⟨.docError "Document not found", "Document not found", "low"⟩
  else if txns.isEmpty then
    ⟨.noData, "No transactions available for fraud analysis.", "low"⟩
  else
    ⟨.analysis (fraud_checks oracle txns metrics)
        (risk_score_of (fraud_checks oracle txns metrics))
        (count_status (fraud_checks oracle txns metrics) "pass")
        (count_status (fraud_checks oracle txns metrics) "fail")
        (count_status (fraud_checks oracle txns metrics) "warning")
        (fraud_checks oracle txns metrics).length,
      fraud_summary_of (fraud_checks oracle txns metrics),
      risk_level_of (fraud_checks oracle txns metrics)⟩

/-- C9 (amended). With zero persisted transactions (and an existing
document) the fraud agent returns the no-data dictionary: empty check list,
the "no data" summary, and risk level low — whatever the metrics row and
the model oracle are. -/
theorem c9_no_transactions (oracle : Except String String) (metrics : Option SMetrics) :
    fraud_agent_run oracle true [] metrics
      = ⟨.noData, "No transactions available for fraud analysis.", "low"⟩ := rfl

/-- A document with exactly one persisted transaction. -/
def fraudCexTxn : RawTx :=
  { document_id := 1, upload_group_id := none, date := some "05 JAN", description := "",
    transaction_type := "credit", amount := some 10, balance := some 100, reference := none,
    category := "other", counterparty := none, channel := "", is_cash := false,
    is_cheque := false, currency := "SGD", page_number := none, raw_text := {} }

/-- C9 (counterexample). With one transaction — fewer than 2 — the fraud
agent does run and score all eight checks (here all pass, summary
"8/8 checks passed.") instead of returning the "no data" result. -/
theorem c9_counterexample :
    [fraudCexTxn].length < 2 ∧
      fraud_agent_run (.ok "pass") true [fraudCexTxn] none
        = ⟨.analysis (fraud_checks (.ok "pass") [fraudCexTxn] none) 0 8 0 0 8,
            "8/8 checks passed.", "low"⟩ ∧
      (fraud_agent_run (.ok "pass") true [fraudCexTxn] none).results ≠ .noData ∧
      (fraud_agent_run (.ok "pass") true [fraudCexTxn] none).summary
        ≠ "No transactions available for fraud analysis." := by
  have h1 : check_round_amounts [fraudCexTxn] = ⟨"Round-Amount Transactions", "pass"⟩ := by
    norm_num [check_round_amounts, fraudCexTxn, pyOrQ, List.filter]
  have h2 : check_duplicates [fraudCexTxn]
      = ⟨"Duplicate / Near-Duplicate Transactions", "pass"⟩ := by
    norm_num [check_duplicates, dup_key, date_key, fmt2, roundHalfEven, round_eq, Int.fract,
      pyOrQ, pyOrS, fraudCexTxn, pad2]
  have h3 : check_rapid_succession [fraudCexTxn]
      = ⟨"Rapid Succession Transactions", "pass"⟩ := by decide
  have h4 : check_large_outliers [fraudCexTxn] = ⟨"Large Outlier Transactions", "pass"⟩ := by
    decide
  have h5 : check_balance_anomalies [fraudCexTxn] = ⟨"Balance Anomalies", "pass"⟩ := by decide
  have h6 : check_cash_heavy [fraudCexTxn] none = ⟨"Cash-Heavy Activity", "pass"⟩ := by
    norm_num [check_cash_heavy, fraudCexTxn, pyOrQ, List.filter]
  have h7 : check_timing_patterns [fraudCexTxn] = ⟨"Unusual Timing Patterns", "pass"⟩ := by
    decide
  have h8 : check_counterparty_risk (.ok "pass") [fraudCexTxn]
      = ⟨"Counterparty Risk Assessment", "pass"⟩ := by decide
  have hcs : fraud_checks (.ok "pass") [fraudCexTxn] none
      = [⟨"Round-Amount Transactions", "pass"⟩,
         ⟨"Duplicate / Near-Duplicate Transactions", "pass"⟩,
         ⟨"Rapid Succession Transactions", "pass"⟩,
         ⟨"Large Outlier Transactions", "pass"⟩,
         ⟨"Balance Anomalies", "pass"⟩,
         ⟨"Cash-Heavy Activity", "pass"⟩,
         ⟨"Unusual Timing Patterns", "pass"⟩,
         ⟨"Counterparty Risk Assessment", "pass"⟩] := by
    rw [fraud_checks, h1, h2, h3, h4, h5, h6, h7, h8]
  have hrun : fraud_agent_run (.ok "pass") true [fraudCexTxn] none
      = ⟨.analysis (fraud_checks (.ok "pass") [fraudCexTxn] none) 0 8 0 0 8,
          "8/8 checks passed.", "low"⟩ := by
    rw [show fraud_agent_run (.ok "pass") true [fraudCexTxn] none
        = ⟨.analysis (fraud_checks (.ok "pass") [fraudCexTxn] none)
            (risk_score_of (fraud_checks (.ok "pass") [fraudCexTxn] none))
            (count_status (fraud_checks (.ok "pass") [fraudCexTxn] none) "pass")
            (count_status (fraud_checks (.ok "pass") [fraudCexTxn] none) "fail")
            (count_status (fraud_checks (.ok "pass") [fraudCexTxn] none) "warning")
            (fraud_checks (.ok "pass") [fraudCexTxn] none).length,
          fraud_summary_of (fraud_checks (.ok "pass") [fraudCexTxn] none),
          risk_level_of (fraud_checks (.ok "pass") [fraudCexTxn] none)⟩ from rfl]
    rw [hcs]
    decide
  refine ⟨by norm_num, hrun, ?_, ?_⟩
  · rw [hrun]; decide
  · rw [hrun]; decide

/-! ## Orchestrator (orchestrator.py)

`run_all_agents` runs the five per-document agent phases strictly serially
(the background task is a single synchronous function): Layout, then
Extraction, then the loop Tampering → Fraud → Insights, then the document
status update and the group trigger.  The agents only read the store (the
only writing agent body, Extraction's, is never reached — see
`extractionTypeError`), so the agent calls are read-only oracles in `Env`. -/

/-- Read-only oracles for the agent bodies the orchestrator invokes.  The
orchestrator is given a document id and the current store and receives the
`{results, summary, risk_level}` dictionary or an exception. -/
structure Env (R : Type) where
  layoutRun : ℕ → Store R → Except String (AgentOutput R)
  tamperingRun : ℕ → Store R → Except String (AgentOutput R)
  fraudRun : ℕ → Store R → Except String (AgentOutput R)
  insightsRun : ℕ → Store R → Except String (AgentOutput R)
  tamperingRunGroup : ℕ → Store R → Except String (AgentOutput R)
  insightsRunGroup : ℕ → Store R → Except String (AgentOutput R)

/-- The key of an `AgentResult` row. -/
def agentKey (d : ℕ) (ty : AgentType) (a : AgentRec R) : Bool :=
  a.document_id == d && a.agent_type == ty

/-- `db.query(AgentResult).filter(document_id == d, agent_type == ty).first()` -/
def lookupAgent (s : Store R) (d : ℕ) (ty : AgentType) : Option (AgentRec R) :=
  s.agent_results.find? (agentKey d ty)

/-- In-place update of the `(d, ty)` agent row. -/
def updateAgent (s : Store R) (d : ℕ) (ty : AgentType) (f : AgentRec R → AgentRec R) :
    Store R :=
  { s with agent_results :=
      s.agent_results.map (fun a => if agentKey d ty a then f a else a) }

/-- Create the `(d, ty)` agent row when it does not exist (`db.add`). -/
def ensureAgent (s : Store R) (d : ℕ) (g : Option ℕ) (ty : AgentType) : Store R :=
  if (lookupAgent s d ty).isSome then s
  else { s with agent_results :=
      s.agent_results ++ [{ document_id := d, upload_group_id := g, agent_type := ty }] }

/-- `db.query(Document).filter(Document.id == d).first()` -/
def findDoc (s : Store R) (d : ℕ) : Option DocRec := s.docs.find? (fun x => x.id == d)

/-- `doc.status = …; db.commit()` -/
def updateDoc (s : Store R) (d : ℕ) (st : DocStatus) : Store R :=
  { s with docs := s.docs.map (fun x => if x.id == d then { x with status := st } else x) }

/-- `Pending/Failed → Running (started_at := now)` transition. -/
def startRec (t : ℕ) (a : AgentRec R) : AgentRec R :=
  { a with status := .running, started_at := some t }

/-- `Running → Completed` transition, recording results, summary,
risk_level and `completed_at`. -/
def completeRec (out : AgentOutput R) (t : ℕ) (a : AgentRec R) : AgentRec R :=
  { a with
    status := .completed, results := some out.results, summary := some out.summary,
    risk_level := some out.risk_level, completed_at := some t }

/-- `Running → Failed` transition, recording the error message and
`completed_at`. -/
def failRec (e : String) (t : ℕ) (a : AgentRec R) : AgentRec R :=
  { a with status := .failed, error_message := some e, completed_at := some t }

/-- `startRec` on a group row. -/
def startGroupRec (t : ℕ) (a : GroupRec R) : GroupRec R :=
  { a with status := .running, started_at := some t }

/-- `completeRec` on a group row. -/
def completeGroupRec (out : AgentOutput R) (t : ℕ) (a : GroupRec R) : GroupRec R :=
  { a with
    status := .completed, results := some out.results, summary := some out.summary,
    risk_level := some out.risk_level, completed_at := some t }

/-- `failRec` on a group row. -/
def failGroupRec (e : String) (t : ℕ) (a : GroupRec R) : GroupRec R :=
  { a with status := .failed, error_message := some e, completed_at := some t }

/-- One ungated agent execution on an existing `(d, ty)` row: mark Running
with `started_at := now`, commit, call the agent on the committed store; on
success mark Completed recording results, summary, risk_level and
`completed_at := now`; on exception mark Failed recording the error message
and `completed_at := now` (orchestrator.py:51-75, 100-123, 156-179). -/
def runPhase (d : ℕ) (ty : AgentType)
    (runner : Store R → Except String (AgentOutput R)) (s : Store R) :
    Store R × Except String (AgentOutput R) :=
  let s1 := updateAgent { s with clock := s.clock + 1 } d ty (startRec s.clock)
  match runner s1 with
  | .ok out =>
    (updateAgent { s1 with clock := s1.clock + 1 } d ty (completeRec out s1.clock), .ok out)
  | .error e =>
    (updateAgent { s1 with clock := s1.clock + 1 } d ty (failRec e s1.clock), .error e)

/-- Step 1 of `run_all_agents` (orchestrator.py:30-78): the Layout phase.
Returns the store and the layout context: the fresh results on success, the
stored results when the row was already Completed, `None` on failure. -/
def layoutPhase (env : Env R) (d : ℕ) (g : Option ℕ) (s : Store R) :
    Store R × Option R :=
  let s := ensureAgent s d g .layout
  match lookupAgent s d .layout with
  | some rec =>
    if rec.status == .completed then (s, rec.results)
    else
      match runPhase d .layout (env.layoutRun d) s with
      | (s2, .ok out) => (s2, some out.results)
      | (s2, .error _) => (s2, none)
  | none => (s, none)

/-- The exception raised by the Extraction invocation: orchestrator.py:107
calls `extraction_agent.run(document_id, db, layout_context=layout_context)`
but `ExtractionAgent.run` (extraction.py:2006) accepts no `layout_context`
parameter, so Python raises `TypeError` at the call, inside the try-block,
before any extraction work runs. -/
def extractionTypeError : String :=
  "TypeError: ExtractionAgent.run() got an unexpected keyword argument layout_context"

/-- Step 2 of `run_all_agents` (orchestrator.py:80-125): the Extraction
phase.  The computed layout context is passed at the call site, but the
invocation itself always raises `TypeError` (see `extractionTypeError`), so
the runner is the constant error. -/
def extractionPhase (d : ℕ) (g : Option ℕ) (layout_context : Option R) (s : Store R) :
    Store R :=
  let s := ensureAgent s d g .extraction
  match lookupAgent s d .extraction with
  | some rec =>
    if rec.status == .completed then s
    else (runPhase d .extraction (fun _ => .error extractionTypeError) s).1
  | none => s

/-- Step 3 of `run_all_agents` (orchestrator.py:127-179): one iteration of
the Tampering/Fraud/Insights loop.  A missing row is created and then run;
a Completed row is skipped; otherwise the row is run. -/
def loopPhase (d : ℕ) (g : Option ℕ) (ty : AgentType)
    (runner : Store R → Except String (AgentOutput R)) (s : Store R) : Store R :=
  match lookupAgent s d ty with
  | none => (runPhase d ty runner (ensureAgent s d g ty)).1
  | some rec =>
    if rec.status == .completed then s
    else (runPhase d ty runner s).1

/-- The key of a `GroupAgentResult` row. -/
def groupKey (g : ℕ) (ty : AgentType) (a : GroupRec R) : Bool :=
  a.upload_group_id == g && a.agent_type == ty

/-- Group agent-result lookup. -/
def lookupGroup (s : Store R) (g : ℕ) (ty : AgentType) : Option (GroupRec R) :=
  s.group_results.find? (groupKey g ty)

/-- In-place update of the `(g, ty)` group row. -/
def updateGroup (s : Store R) (g : ℕ) (ty : AgentType) (f : GroupRec R → GroupRec R) :
    Store R :=
  { s with group_results :=
      s.group_results.map (fun a => if groupKey g ty a then f a else a) }

/-- Create the `(g, ty)` group row when it does not exist. -/
def ensureGroup (s : Store R) (g : ℕ) (ty : AgentType) : Store R :=
  if (lookupGroup s g ty).isSome then s
  else { s with group_results :=
      s.group_results ++ [{ upload_group_id := g, agent_type := ty }] }

/-- One ungated group-agent execution (orchestrator.py:287-313). -/
def runGroupPhase (g : ℕ) (ty : AgentType)
    (runner : Store R → Except String (AgentOutput R)) (s : Store R) : Store R :=
  let s1 := updateGroup { s with clock := s.clock + 1 } g ty (startGroupRec s.clock)
  match runner s1 with
  | .ok out =>
    updateGroup { s1 with clock := s1.clock + 1 } g ty (completeGroupRec out s1.clock)
  | .error e =>
    updateGroup { s1 with clock := s1.clock + 1 } g ty (failGroupRec e s1.clock)

/-- One iteration of the group-agent loop (orchestrator.py:265-313): create
a missing row and run it, skip a Completed row, run otherwise. -/
def groupAgentStep (g : ℕ) (ty : AgentType)
    (runner : Store R → Except String (AgentOutput R)) (s : Store R) : Store R :=
  match lookupGroup s g ty with
  | none => runGroupPhase g ty runner (ensureGroup s g ty)
  | some rec =>
    if rec.status == .completed then s
    else runGroupPhase g ty runner s

/-- The exception raised by the group Fraud invocation:
`run_group_agents` (orchestrator.py:293) calls `agent.run_group(...)` on a
`FraudAgent`, which defines no `run_group` method (fraud.py:421-493 has only
`run`), so Python raises `AttributeError` inside the try-block. -/
def fraudGroupAttributeError : String :=
  "AttributeError: FraudAgent object has no attribute run_group"

/-- `run_group_agents` (orchestrator.py:217-322): after checking that the
group has documents, that they are all Completed and that there are at
least two of them, run group Tampering → group Fraud → group Insights
serially, each gated on its GroupAgentResult status. -/
def run_group_agents (env : Env R) (g : ℕ) (s : Store R) : Store R :=
  let docs := s.docs.filter (fun x => x.upload_group_id == some g)
  if docs.isEmpty then s
  else if ¬ (docs.all (fun x => x.status == .completed)) then s
  else if docs.length < 2 then s
  else
    let s1 := groupAgentStep g .tampering (env.tamperingRunGroup g) s
    let s2 := groupAgentStep g .fraud (fun _ => .error fraudGroupAttributeError) s1
    groupAgentStep g .insights (env.insightsRunGroup g) s2

/-- `run_all_agents` (orchestrator.py:12-214): the serial per-document
pipeline — Layout, Extraction (with the layout context at the call site),
then Tampering, Fraud, Insights, then mark the document Completed and fire
the group trigger when every document of the group is Completed and the
group holds more than one document. -/
def run_all_agents (env : Env R) (d : ℕ) (s : Store R) : Store R :=
  match findDoc s d with
  | none => s
  | some doc =>
    let p := layoutPhase env d doc.upload_group_id s
    let s2 := extractionPhase d doc.upload_group_id p.2 p.1
    let s3 := loopPhase d doc.upload_group_id .tampering (env.tamperingRun d) s2
    let s4 := loopPhase d doc.upload_group_id .fraud (env.fraudRun d) s3
    let s5 := loopPhase d doc.upload_group_id .insights (env.insightsRun d) s4
    let s6 := updateDoc s5 d .completed
    match doc.upload_group_id with
    | none => s6
    | some g =>
      let gdocs := s6.docs.filter (fun x => x.upload_group_id == some g)
      if gdocs.all (fun x => x.status == .completed) && 1 < gdocs.length then
        run_group_agents env g s6
      else s6

/-! ### Row-lookup lemmas -/

theorem find?_map_update (l : List α) (p : α → Bool) (f : α → α)
    (hf : ∀ a, p (f a) = p a) :
    (l.map (fun a => if p a then f a else a)).find? p = (l.find? p).map f := by
  induction l with
  | nil => rfl
  | cons a t ih =>
    by_cases h : p a = true
    · rw [List.map_cons, if_pos h, List.find?_cons_of_pos _ ((hf a).trans h),
        List.find?_cons_of_pos _ h]
      rfl
    · have h2 : p a = false := by revert h; cases p a <;> simp
      rw [List.map_cons, if_neg (by simp [h2]), List.find?_cons_of_neg _ (by simp [h2]),
        List.find?_cons_of_neg _ (by simp [h2]), ih]

theorem find?_map_update_ne (l : List α) (p q : α → Bool) (f : α → α)
    (hf : ∀ a, p (f a) = p a) :
    (l.map (fun a => if q a then f a else a)).find? p = (l.find? p).map
      (fun a => if q a then f a else a) := by
  induction l with
  | nil => rfl
  | cons a t ih =>
    by_cases h : p a = true
    · by_cases hq : q a = true
      · rw [List.map_cons, if_pos hq, List.find?_cons_of_pos _ ((hf a).trans h),
          List.find?_cons_of_pos _ h]
        simp [hq]
      · have hq2 : q a = false := by revert hq; cases q a <;> simp
        rw [List.map_cons, if_neg (by simp [hq2]), List.find?_cons_of_pos _ h,
          List.find?_cons_of_pos _ h]
        simp [hq2]
    · have h2 : p a = false := by revert h; cases p a <;> simp
      by_cases hq : q a = true
      · rw [List.map_cons, if_pos hq, List.find?_cons_of_neg _ (by simp [(hf a).trans h2]),
          List.find?_cons_of_neg _ (by simp [h2]), ih]
      · have hq2 : q a = false := by revert hq; cases q a <;> simp
        rw [List.map_cons, if_neg (by simp [hq2]), List.find?_cons_of_neg _ (by simp [h2]),
          List.find?_cons_of_neg _ (by simp [h2]), ih]

theorem find?_append_none (l1 l2 : List α) (p : α → Bool) (h : l1.find? p = none) :
    (l1 ++ l2).find? p = l2.find? p := by
  induction l1 with
  | nil => rfl
  | cons a t ih =>
    rw [List.find?_cons] at h
    rcases hpa : p a with _ | _
    · rw [List.cons_append, List.find?_cons_of_neg _ (by simp [hpa])]
      rw [hpa] at h
      exact ih h
    · rw [hpa] at h
      simp at h

theorem find?_append_some (l1 l2 : List α) (p : α → Bool) (r : α) (h : l1.find? p = some r) :
    (l1 ++ l2).find? p = some r := by
  induction l1 with
  | nil => simp at h
  | cons a t ih =>
    rcases hpa : p a with _ | _
    · rw [List.find?_cons_of_neg _ (by simp [hpa])] at h
      rw [List.cons_append, List.find?_cons_of_neg _ (by simp [hpa])]
      exact ih h
    · rw [List.find?_cons_of_pos _ hpa] at h
      rw [List.cons_append, List.find?_cons_of_pos _ hpa]
      exact h

/-- The transition helpers keep the key fields of an agent row. -/
theorem agentKey_startRec (d : ℕ) (ty : AgentType) (t : ℕ) (a : AgentRec R) :
    agentKey d ty (startRec t a) = agentKey d ty a := rfl

theorem agentKey_completeRec (d : ℕ) (ty : AgentType) (out : AgentOutput R) (t : ℕ)
    (a : AgentRec R) : agentKey d ty (completeRec out t a) = agentKey d ty a := rfl

theorem agentKey_failRec (d : ℕ) (ty : AgentType) (e : String) (t : ℕ) (a : AgentRec R) :
    agentKey d ty (failRec e t a) = agentKey d ty a := rfl

/-- `lookupAgent` after an in-place update of the same key. -/
theorem lookupAgent_updateAgent_self (s : Store R) (d : ℕ) (ty : AgentType)
    (f : AgentRec R → AgentRec R) (hf : ∀ a, agentKey d ty (f a) = agentKey d ty a) :
    lookupAgent (updateAgent s d ty f) d ty = (lookupAgent s d ty).map f :=
  find?_map_update _ _ _ hf

/-- `lookupAgent` of another key after an in-place update: the looked-up row
is key-different from every updated row, so only its own possible update by
`f` matters; with key-preserving `f` and a key mismatch it is unchanged. -/
theorem lookupAgent_updateAgent_ne (s : Store R) (d : ℕ) (ty : AgentType)
    (d2 : ℕ) (ty2 : AgentType) (f : AgentRec R → AgentRec R)
    (hf : ∀ a, agentKey d2 ty2 (f a) = agentKey d2 ty2 a)
    (hne : ¬ (d2 = d ∧ ty2 = ty)) :
    lookupAgent (updateAgent s d ty f) d2 ty2 = lookupAgent s d2 ty2 := by
  show (s.agent_results.map (fun a => if agentKey d ty a then f a else a)).find?
      (agentKey d2 ty2) = _
  have hL : List.find? (agentKey d2 ty2) s.agent_results = lookupAgent s d2 ty2 := rfl
  rcases h : lookupAgent s d2 ty2 with _ | r
  · rw [find?_map_update_ne _ _ _ _ hf, hL, h]
    rfl
  · rw [find?_map_update_ne _ _ _ _ hf, hL, h]
    have hmem : agentKey d2 ty2 r = true := List.find?_some h
    have hkey : agentKey d ty r = false := by
      simp only [agentKey, Bool.and_eq_true, beq_iff_eq] at hmem ⊢
      by_contra hcon
      simp only [Bool.not_eq_false, Bool.and_eq_true, beq_iff_eq] at hcon
      exact hne ⟨hmem.1 ▸ hcon.1.symm ▸ rfl, hmem.2 ▸ hcon.2.symm ▸ rfl⟩
    simp [hkey]

/-- `lookupAgent` after `ensureAgent` of the same key: the old row, or the
freshly created Pending row. -/
theorem lookupAgent_ensureAgent_self (s : Store R) (d : ℕ) (g : Option ℕ) (ty : AgentType) :
    lookupAgent (ensureAgent s d g ty) d ty
      = some ((lookupAgent s d ty).getD
          { document_id := d, upload_group_id := g, agent_type := ty }) := by
  rw [ensureAgent]
  rcases h : lookupAgent s d ty with _ | r
  · rw [if_neg (by simp [h])]
    show List.find? _ (s.agent_results ++ [_]) = _
    rw [find?_append_none _ _ _ h]
    rw [List.find?_cons_of_pos _ (by simp [agentKey])]
    rfl
  · rw [if_pos (by simp [h]), h]
    rfl

/-- `lookupAgent` of another key after `ensureAgent`. -/
theorem lookupAgent_ensureAgent_ne (s : Store R) (d : ℕ) (g : Option ℕ) (ty : AgentType)
    (d2 : ℕ) (ty2 : AgentType) (hne : ¬ (d2 = d ∧ ty2 = ty)) :
    lookupAgent (ensureAgent s d g ty) d2 ty2 = lookupAgent s d2 ty2 := by
  rw [ensureAgent]
  rcases h : lookupAgent s d ty with _ | r
  · rw [if_neg (by simp [h])]
    show List.find? _ (s.agent_results ++ [_]) = _
    rcases h2 : lookupAgent s d2 ty2 with _ | r2
    · rw [find?_append_none _ _ _ h2]
      rw [List.find?_cons_of_neg _ ?_]
      · rfl
      · simp only [agentKey, Bool.and_eq_true, beq_iff_eq, not_and]
        intro hd hty
        exact absurd ⟨hd.symm, hty.symm⟩ hne
    · exact find?_append_some _ _ _ _ h2
  · rw [if_pos (by simp [h])]

theorem groupKey_startGroupRec (g : ℕ) (ty : AgentType) (t : ℕ) (a : GroupRec R) :
    groupKey g ty (startGroupRec t a) = groupKey g ty a := rfl

theorem groupKey_completeGroupRec (g : ℕ) (ty : AgentType) (out : AgentOutput R) (t : ℕ)
    (a : GroupRec R) : groupKey g ty (completeGroupRec out t a) = groupKey g ty a := rfl

theorem groupKey_failGroupRec (g : ℕ) (ty : AgentType) (e : String) (t : ℕ) (a : GroupRec R) :
    groupKey g ty (failGroupRec e t a) = groupKey g ty a := rfl

/-- `lookupGroup` after an in-place update of the same key. -/
theorem lookupGroup_updateGroup_self (s : Store R) (g : ℕ) (ty : AgentType)
    (f : GroupRec R → GroupRec R) (hf : ∀ a, groupKey g ty (f a) = groupKey g ty a) :
    lookupGroup (updateGroup s g ty f) g ty = (lookupGroup s g ty).map f :=
  find?_map_update _ _ _ hf

/-- `lookupGroup` of another key after an in-place update. -/
theorem lookupGroup_updateGroup_ne (s : Store R) (g : ℕ) (ty : AgentType)
    (g2 : ℕ) (ty2 : AgentType) (f : GroupRec R → GroupRec R)
    (hf : ∀ a, groupKey g2 ty2 (f a) = groupKey g2 ty2 a)
    (hne : ¬ (g2 = g ∧ ty2 = ty)) :
    lookupGroup (updateGroup s g ty f) g2 ty2 = lookupGroup s g2 ty2 := by
  show (s.group_results.map (fun a => if groupKey g ty a then f a else a)).find?
      (groupKey g2 ty2) = _
  have hL : List.find? (groupKey g2 ty2) s.group_results = lookupGroup s g2 ty2 := rfl
  rcases h : lookupGroup s g2 ty2 with _ | r
  · rw [find?_map_update_ne _ _ _ _ hf, hL, h]
    rfl
  · rw [find?_map_update_ne _ _ _ _ hf, hL, h]
    have hmem : groupKey g2 ty2 r = true := List.find?_some h
    have hkey : groupKey g ty r = false := by
      simp only [groupKey, Bool.and_eq_true, beq_iff_eq] at hmem ⊢
      by_contra hcon
      simp only [Bool.not_eq_false, Bool.and_eq_true, beq_iff_eq] at hcon
      exact hne ⟨hmem.1 ▸ hcon.1.symm ▸ rfl, hmem.2 ▸ hcon.2.symm ▸ rfl⟩
    simp [hkey]

/-- `lookupGroup` after `ensureGroup` of the same key. -/
theorem lookupGroup_ensureGroup_self (s : Store R) (g : ℕ) (ty : AgentType) :
    lookupGroup (ensureGroup s g ty) g ty
      = some ((lookupGroup s g ty).getD { upload_group_id := g, agent_type := ty }) := by
  rw [ensureGroup]
  rcases h : lookupGroup s g ty with _ | r
  · rw [if_neg (by simp [h])]
    show List.find? _ (s.group_results ++ [_]) = _
    rw [find?_append_none _ _ _ h]
    rw [List.find?_cons_of_pos _ (by simp [groupKey])]
    rfl
  · rw [if_pos (by simp [h]), h]
    rfl

/-- `lookupGroup` of another key after `ensureGroup`. -/
theorem lookupGroup_ensureGroup_ne (s : Store R) (g : ℕ) (ty : AgentType)
    (g2 : ℕ) (ty2 : AgentType) (hne : ¬ (g2 = g ∧ ty2 = ty)) :
    lookupGroup (ensureGroup s g ty) g2 ty2 = lookupGroup s g2 ty2 := by
  rw [ensureGroup]
  rcases h : lookupGroup s g ty with _ | r
  · rw [if_neg (by simp [h])]
    show List.find? _ (s.group_results ++ [_]) = _
    rcases h2 : lookupGroup s g2 ty2 with _ | r2
    · rw [find?_append_none _ _ _ h2]
      rw [List.find?_cons_of_neg _ ?_]
      · rfl
      · simp only [groupKey, Bool.and_eq_true, beq_iff_eq, not_and]
        intro hg hty
        exact absurd ⟨hg.symm, hty.symm⟩ hne
    · exact find?_append_some _ _ _ _ h2
  · rw [if_pos (by simp [h])]

/-! ### Table-preservation lemmas -/

/-- `runPhase` only touches `agent_results` and the clock. -/
theorem runPhase_tables (d : ℕ) (ty : AgentType)
    (runner : Store R → Except String (AgentOutput R)) (s : Store R) :
    ((runPhase d ty runner s).1).docs = s.docs ∧
      ((runPhase d ty runner s).1).group_results = s.group_results ∧
      ((runPhase d ty runner s).1).raw_transactions = s.raw_transactions ∧
      ((runPhase d ty runner s).1).statement_metrics = s.statement_metrics ∧
      ((runPhase d ty runner s).1).aggregated_metrics = s.aggregated_metrics := by
  rw [runPhase]
  cases runner (updateAgent { s with clock := s.clock + 1 } d ty (startRec s.clock)) <;>
    exact ⟨rfl, rfl, rfl, rfl, rfl⟩

/-- `runPhase` advances the clock by exactly two ticks. -/
theorem runPhase_clock (d : ℕ) (ty : AgentType)
    (runner : Store R → Except String (AgentOutput R)) (s : Store R) :
    ((runPhase d ty runner s).1).clock = s.clock + 2 := by
  rw [runPhase]
  cases runner (updateAgent { s with clock := s.clock + 1 } d ty (startRec s.clock)) <;> rfl

/-- `ensureAgent` only touches `agent_results`. -/
theorem ensureAgent_tables (s : Store R) (d : ℕ) (g : Option ℕ) (ty : AgentType) :
    (ensureAgent s d g ty).docs = s.docs ∧
      (ensureAgent s d g ty).group_results = s.group_results ∧
      (ensureAgent s d g ty).raw_transactions = s.raw_transactions ∧
      (ensureAgent s d g ty).statement_metrics = s.statement_metrics ∧
      (ensureAgent s d g ty).aggregated_metrics = s.aggregated_metrics ∧
      (ensureAgent s d g ty).clock = s.clock := by
  rw [ensureAgent]
  split <;> exact ⟨rfl, rfl, rfl, rfl, rfl, rfl⟩

/-- `runGroupPhase` only touches `group_results` and the clock. -/
theorem runGroupPhase_tables (g : ℕ) (ty : AgentType)
    (runner : Store R → Except String (AgentOutput R)) (s : Store R) :
    (runGroupPhase g ty runner s).docs = s.docs ∧
      (runGroupPhase g ty runner s).agent_results = s.agent_results ∧
      (runGroupPhase g ty runner s).raw_transactions = s.raw_transactions ∧
      (runGroupPhase g ty runner s).statement_metrics = s.statement_metrics ∧
      (runGroupPhase g ty runner s).aggregated_metrics = s.aggregated_metrics := by
  rw [runGroupPhase]
  cases runner (updateGroup { s with clock := s.clock + 1 } g ty (startGroupRec s.clock)) <;>
    exact ⟨rfl, rfl, rfl, rfl, rfl⟩

/-- `ensureGroup` only touches `group_results`. -/
theorem ensureGroup_tables (s : Store R) (g : ℕ) (ty : AgentType) :
    (ensureGroup s g ty).docs = s.docs ∧
      (ensureGroup s g ty).agent_results = s.agent_results ∧
      (ensureGroup s g ty).raw_transactions = s.raw_transactions ∧
      (ensureGroup s g ty).statement_metrics = s.statement_metrics ∧
      (ensureGroup s g ty).aggregated_metrics = s.aggregated_metrics := by
  rw [ensureGroup]
  split <;> exact ⟨rfl, rfl, rfl, rfl, rfl⟩

/-- `groupAgentStep` only touches `group_results` and the clock. -/
theorem groupAgentStep_tables (g : ℕ) (ty : AgentType)
    (runner : Store R → Except String (AgentOutput R)) (s : Store R) :
    (groupAgentStep g ty runner s).docs = s.docs ∧
      (groupAgentStep g ty runner s).agent_results = s.agent_results ∧
      (groupAgentStep g ty runner s).raw_transactions = s.raw_transactions ∧
      (groupAgentStep g ty runner s).statement_metrics = s.statement_metrics ∧
      (groupAgentStep g ty runner s).aggregated_metrics = s.aggregated_metrics := by
  rw [groupAgentStep]
  split
  · have h1 := runGroupPhase_tables g ty runner (ensureGroup s g ty)
    have h2 := ensureGroup_tables s g ty
    exact ⟨h1.1.trans h2.1, h1.2.1.trans h2.2.1, h1.2.2.1.trans h2.2.2.1,
      h1.2.2.2.1.trans h2.2.2.2.1, h1.2.2.2.2.trans h2.2.2.2.2⟩
  · split
    · exact ⟨rfl, rfl, rfl, rfl, rfl⟩
    · exact runGroupPhase_tables g ty runner s

/-- `run_group_agents` only touches `group_results` and the clock. -/
theorem run_group_agents_tables (env : Env R) (g : ℕ) (s : Store R) :
    (run_group_agents env g s).docs = s.docs ∧
      (run_group_agents env g s).agent_results = s.agent_results ∧
      (run_group_agents env g s).raw_transactions = s.raw_transactions ∧
      (run_group_agents env g s).statement_metrics = s.statement_metrics ∧
      (run_group_agents env g s).aggregated_metrics = s.aggregated_metrics := by
  rw [run_group_agents]
  split
  · exact ⟨rfl, rfl, rfl, rfl, rfl⟩
  · split
    · exact ⟨rfl, rfl, rfl, rfl, rfl⟩
    · split
      · exact ⟨rfl, rfl, rfl, rfl, rfl⟩
      · have h1 := groupAgentStep_tables g .tampering (env.tamperingRunGroup g) s
        have h2 := groupAgentStep_tables g .fraud
          (fun _ => .error fraudGroupAttributeError)
          (groupAgentStep g .tampering (env.tamperingRunGroup g) s)
        have h3 := groupAgentStep_tables g .insights (env.insightsRunGroup g)
          (groupAgentStep g .fraud (fun _ => .error fraudGroupAttributeError)
            (groupAgentStep g .tampering (env.tamperingRunGroup g) s))
        refine ⟨?_, ?_, ?_, ?_, ?_⟩
        · rw [h3.1, h2.1, h1.1]
        · rw [h3.2.1, h2.2.1, h1.2.1]
        · rw [h3.2.2.1, h2.2.2.1, h1.2.2.1]
        · rw [h3.2.2.2.1, h2.2.2.2.1, h1.2.2.2.1]
        · rw [h3.2.2.2.2, h2.2.2.2.2, h1.2.2.2.2]

/-! ### Phase-level lemmas -/

/-- The clock field does not affect lookups. -/
theorem lookupAgent_clock (s : Store R) (c d : ℕ) (ty : AgentType) :
    lookupAgent { s with clock := c } d ty = lookupAgent s d ty := rfl

/-- `runPhase` leaves every other agent row unchanged. -/
theorem runPhase_lookup_ne (d : ℕ) (ty : AgentType)
    (runner : Store R → Except String (AgentOutput R)) (s : Store R)
    (d2 : ℕ) (ty2 : AgentType) (hne : ¬ (d2 = d ∧ ty2 = ty)) :
    lookupAgent (runPhase d ty runner s).1 d2 ty2 = lookupAgent s d2 ty2 := by
  rw [runPhase]
  cases runner (updateAgent { s with clock := s.clock + 1 } d ty (startRec s.clock)) with
  | ok out =>
    show lookupAgent (updateAgent _ d ty _) d2 ty2 = _
    rw [lookupAgent_updateAgent_ne _ _ _ _ _ _ (fun a => agentKey_completeRec _ _ _ _ _) hne,
      lookupAgent_clock,
      lookupAgent_updateAgent_ne _ _ _ _ _ _ (fun a => agentKey_startRec _ _ _ _) hne,
      lookupAgent_clock]
  | error e =>
    show lookupAgent (updateAgent _ d ty _) d2 ty2 = _
    rw [lookupAgent_updateAgent_ne _ _ _ _ _ _ (fun a => agentKey_failRec _ _ _ _ _) hne,
      lookupAgent_clock,
      lookupAgent_updateAgent_ne _ _ _ _ _ _ (fun a => agentKey_startRec _ _ _ _) hne,
      lookupAgent_clock]

/-- After `runPhase` on an existing row, the row carries
`started_at = now₀` and `completed_at = now₁` with the status and payload
given by the runner outcome. -/
theorem runPhase_lookup_self (d : ℕ) (ty : AgentType)
    (runner : Store R → Except String (AgentOutput R)) (s : Store R) (r : AgentRec R)
    (h : lookupAgent s d ty = some r) :
    ∃ rec, lookupAgent (runPhase d ty runner s).1 d ty = some rec ∧
      rec.started_at = some s.clock ∧ rec.completed_at = some (s.clock + 1) ∧
      (rec.status = .completed ∨ (rec.status = .failed ∧ rec.error_message.isSome)) := by
  rw [runPhase]
  cases runner (updateAgent { s with clock := s.clock + 1 } d ty (startRec s.clock)) with
  | ok out =>
    refine ⟨completeRec out (s.clock + 1) (startRec s.clock r), ?_, rfl, rfl, Or.inl rfl⟩
    show lookupAgent (updateAgent _ d ty _) d ty = _
    rw [lookupAgent_updateAgent_self _ _ _ _ (fun a => agentKey_completeRec _ _ _ _ _),
      lookupAgent_clock,
      lookupAgent_updateAgent_self _ _ _ _ (fun a => agentKey_startRec _ _ _ _),
      lookupAgent_clock, h]
    rfl
  | error e =>
    refine ⟨failRec e (s.clock + 1) (startRec s.clock r), ?_, rfl, rfl, Or.inr ⟨rfl, rfl⟩⟩
    show lookupAgent (updateAgent _ d ty _) d ty = _
    rw [lookupAgent_updateAgent_self _ _ _ _ (fun a => agentKey_failRec _ _ _ _ _),
      lookupAgent_clock,
      lookupAgent_updateAgent_self _ _ _ _ (fun a => agentKey_startRec _ _ _ _),
      lookupAgent_clock, h]
    rfl

/-- After `runPhase` with a runner that always raises, the row is Failed
with that error message. -/
theorem runPhase_lookup_self_error (d : ℕ) (ty : AgentType) (e : String)
    (s : Store R) (r : AgentRec R) (h : lookupAgent s d ty = some r) :
    lookupAgent (runPhase d ty (fun _ => .error e) s).1 d ty
      = some (failRec e (s.clock + 1) (startRec s.clock r)) := by
  rw [runPhase]
  show lookupAgent (updateAgent _ d ty _) d ty = _
  rw [lookupAgent_updateAgent_self _ _ _ _ (fun a => agentKey_failRec _ _ _ _ _),
    lookupAgent_clock,
    lookupAgent_updateAgent_self _ _ _ _ (fun a => agentKey_startRec _ _ _ _),
    lookupAgent_clock, h]
  rfl

/-- `ensureAgent` is the identity on an existing row. -/
theorem ensureAgent_of_isSome (s : Store R) (d : ℕ) (g : Option ℕ) (ty : AgentType)
    (h : (lookupAgent s d ty).isSome) : ensureAgent s d g ty = s := by
  rw [ensureAgent, if_pos h]

/-- The Layout phase on a Completed row: skip, context is the stored
results. -/
theorem layoutPhase_completed (env : Env R) (d : ℕ) (g : Option ℕ) (s : Store R)
    (r : AgentRec R) (h : lookupAgent s d .layout = some r) (hc : r.status = .completed) :
    layoutPhase env d g s = (s, r.results) := by
  rw [layoutPhase, ensureAgent_of_isSome s d g .layout (by simp [h]), h]
  simp [hc]

/-- The Layout phase on a missing or non-Completed row runs the agent. -/
theorem layoutPhase_run (env : Env R) (d : ℕ) (g : Option ℕ) (s : Store R)
    (hgate : ∀ r, lookupAgent s d .layout = some r → ¬ r.status = .completed) :
    (layoutPhase env d g s).1
      = (runPhase d .layout (env.layoutRun d) (ensureAgent s d g .layout)).1 := by
  rw [layoutPhase, lookupAgent_ensureAgent_self]
  have hst : ((lookupAgent s d .layout).getD
      { document_id := d, upload_group_id := g, agent_type := .layout } : AgentRec R).status
        ≠ .completed := by
    rcases hl : lookupAgent s d .layout with _ | r
    · simp [Option.getD]
    · simpa [hl] using hgate r hl
  simp only [beq_iff_eq, hst, if_neg, not_false_iff]
  rcases hr : runPhase d .layout (env.layoutRun d) (ensureAgent s d g .layout) with ⟨s2, res⟩
  cases res <;> simp [hr]

/-- The Extraction phase on a Completed row: skip. -/
theorem extractionPhase_completed (d : ℕ) (g : Option ℕ) (ctx : Option R) (s : Store R)
    (r : AgentRec R) (h : lookupAgent s d .extraction = some r) (hc : r.status = .completed) :
    extractionPhase d g ctx s = s := by
  rw [extractionPhase, ensureAgent_of_isSome s d g .extraction (by simp [h]), h]
  simp [hc]

/-- The Extraction phase on a missing or non-Completed row runs the
(always-raising) invocation. -/
theorem extractionPhase_run (d : ℕ) (g : Option ℕ) (ctx : Option R) (s : Store R)
    (hgate : ∀ r, lookupAgent s d .extraction = some r → ¬ r.status = .completed) :
    extractionPhase d g ctx s
      = (runPhase d .extraction (fun _ => .error extractionTypeError)
          (ensureAgent s d g .extraction)).1 := by
  rw [extractionPhase, lookupAgent_ensureAgent_self]
  have hst : ((lookupAgent s d .extraction).getD
      { document_id := d, upload_group_id := g, agent_type := .extraction } : AgentRec R).status
        ≠ .completed := by
    rcases hl : lookupAgent s d .extraction with _ | r
    · simp [Option.getD]
    · simpa [hl] using hgate r hl
  simp only [beq_iff_eq, hst, if_neg, not_false_iff]

/-- A loop phase (Tampering/Fraud/Insights) on a Completed row: skip. -/
theorem loopPhase_completed (d : ℕ) (g : Option ℕ) (ty : AgentType)
    (runner : Store R → Except String (AgentOutput R)) (s : Store R)
    (r : AgentRec R) (h : lookupAgent s d ty = some r) (hc : r.status = .completed) :
    loopPhase d g ty runner s = s := by
  rw [loopPhase, h]
  simp [hc]

/-- A loop phase on a missing or non-Completed row runs the agent. -/
theorem loopPhase_run (d : ℕ) (g : Option ℕ) (ty : AgentType)
    (runner : Store R → Except String (AgentOutput R)) (s : Store R)
    (hgate : ∀ r, lookupAgent s d ty = some r → ¬ r.status = .completed) :
    loopPhase d g ty runner s = (runPhase d ty runner (ensureAgent s d g ty)).1 := by
  rw [loopPhase]
  rcases hl : lookupAgent s d ty with _ | r
  · rfl
  · have : ¬ r.status = .completed := hgate r hl
    simp only [beq_iff_eq, this, if_neg, not_false_iff]
    rw [ensureAgent_of_isSome s d g ty (by simp [hl])]

/-- The Layout phase leaves every other agent row unchanged. -/
theorem layoutPhase_lookup_ne (env : Env R) (d : ℕ) (g : Option ℕ) (s : Store R)
    (d2 : ℕ) (ty2 : AgentType) (hne : ¬ (d2 = d ∧ ty2 = .layout)) :
    lookupAgent (layoutPhase env d g s).1 d2 ty2 = lookupAgent s d2 ty2 := by
  rw [layoutPhase]
  have hens := lookupAgent_ensureAgent_ne s d g .layout d2 ty2 hne
  have hrp := runPhase_lookup_ne d .layout (env.layoutRun d)
    (ensureAgent s d g .layout) d2 ty2 hne
  split
  · split
    · exact hens
    · rcases hr : runPhase d .layout (env.layoutRun d) (ensureAgent s d g .layout)
        with ⟨s2, res⟩
      rw [hr] at hrp
      cases res <;> simpa [hr, hrp] using hens
  · exact hens

/-- The Extraction phase leaves every other agent row unchanged. -/
theorem extractionPhase_lookup_ne (d : ℕ) (g : Option ℕ) (ctx : Option R) (s : Store R)
    (d2 : ℕ) (ty2 : AgentType) (hne : ¬ (d2 = d ∧ ty2 = .extraction)) :
    lookupAgent (extractionPhase d g ctx s) d2 ty2 = lookupAgent s d2 ty2 := by
  rw [extractionPhase]
  have hens := lookupAgent_ensureAgent_ne s d g .extraction d2 ty2 hne
  split
  · split
    · exact hens
    · rw [runPhase_lookup_ne d .extraction _ (ensureAgent s d g .extraction) d2 ty2 hne]
      exact hens
  · exact hens

/-- A loop phase leaves every other agent row unchanged. -/
theorem loopPhase_lookup_ne (d : ℕ) (g : Option ℕ) (ty : AgentType)
    (runner : Store R → Except String (AgentOutput R)) (s : Store R)
    (d2 : ℕ) (ty2 : AgentType) (hne : ¬ (d2 = d ∧ ty2 = ty)) :
    lookupAgent (loopPhase d g ty runner s) d2 ty2 = lookupAgent s d2 ty2 := by
  rw [loopPhase]
  split
  · rw [runPhase_lookup_ne d ty runner (ensureAgent s d g ty) d2 ty2 hne]
    exact lookupAgent_ensureAgent_ne s d g ty d2 ty2 hne
  · split
    · rfl
    · exact runPhase_lookup_ne d ty runner s d2 ty2 hne

/-- `updateDoc` does not touch agent rows. -/
theorem lookupAgent_updateDoc (s : Store R) (d : ℕ) (st : DocStatus) (d2 : ℕ)
    (ty2 : AgentType) : lookupAgent (updateDoc s d st) d2 ty2 = lookupAgent s d2 ty2 := rfl

/-- `run_group_agents` does not touch agent rows. -/
theorem lookupAgent_run_group_agents (env : Env R) (g : ℕ) (s : Store R) (d2 : ℕ)
    (ty2 : AgentType) :
    lookupAgent (run_group_agents env g s) d2 ty2 = lookupAgent s d2 ty2 := by
  show (run_group_agents env g s).agent_results.find? _ = s.agent_results.find? _
  rw [(run_group_agents_tables env g s).2.1]

/-- C1.  For every existing document whose Extraction AgentResult is not
already Completed, `run_all_agents` drives the Extraction AgentResult to
Failed with the `TypeError` message of the invocation
`extraction_agent.run(document_id, db, layout_context=…)`: the Extraction
agent accepts no `layout_context` parameter, so the invocation raises before
any extraction work, and the Running → Completed transition never happens. -/
theorem c1_extraction_always_fails (R : Type) (env : Env R) (d : ℕ) (s : Store R)
    (hdoc : (findDoc s d).isSome = true)
    (hgate : (lookupAgent s d .extraction).all (fun a => a.status != .completed) = true) :
    ∃ rec, lookupAgent (run_all_agents env d s) d .extraction = some rec ∧
      rec.status = .failed ∧ rec.error_message = some extractionTypeError := by
  obtain ⟨doc, hdoc2⟩ := Option.isSome_iff_exists.mp hdoc
  rw [run_all_agents, hdoc2]
  dsimp only
  have hafter1 : lookupAgent (layoutPhase env d doc.upload_group_id s).1 d .extraction
      = lookupAgent s d .extraction :=
    layoutPhase_lookup_ne env d doc.upload_group_id s d .extraction (by simp)
  have hgate2 : ∀ r, lookupAgent (layoutPhase env d doc.upload_group_id s).1 d .extraction
      = some r → ¬ r.status = .completed := by
    intro r hr
    rw [hafter1] at hr
    rw [hr] at hgate
    simpa using hgate
  have hext := extractionPhase_run d doc.upload_group_id
    (layoutPhase env d doc.upload_group_id s).2 (layoutPhase env d doc.upload_group_id s).1
    hgate2
  have hens := lookupAgent_ensureAgent_self (layoutPhase env d doc.upload_group_id s).1 d
    doc.upload_group_id .extraction
  have hrec := runPhase_lookup_self_error d .extraction extractionTypeError
    (ensureAgent (layoutPhase env d doc.upload_group_id s).1 d doc.upload_group_id .extraction)
    _ hens
  have h2 : lookupAgent (extractionPhase d doc.upload_group_id
      (layoutPhase env d doc.upload_group_id s).2
      (layoutPhase env d doc.upload_group_id s).1) d .extraction
      = some (failRec extractionTypeError
          ((ensureAgent (layoutPhase env d doc.upload_group_id s).1 d
            doc.upload_group_id .extraction).clock + 1)
          (startRec ((ensureAgent (layoutPhase env d doc.upload_group_id s).1 d
            doc.upload_group_id .extraction).clock)
            ((lookupAgent (layoutPhase env d doc.upload_group_id s).1 d .extraction).getD
              { document_id := d, upload_group_id := doc.upload_group_id,
                agent_type := .extraction }))) := by
    rw [hext]
    exact hrec
  have h3 := loopPhase_lookup_ne d doc.upload_group_id .tampering (env.tamperingRun d)
    (extractionPhase d doc.upload_group_id (layoutPhase env d doc.upload_group_id s).2
      (layoutPhase env d doc.upload_group_id s).1) d .extraction (by simp)
  have h4 := loopPhase_lookup_ne d doc.upload_group_id .fraud (env.fraudRun d)
    (loopPhase d doc.upload_group_id .tampering (env.tamperingRun d)
      (extractionPhase d doc.upload_group_id (layoutPhase env d doc.upload_group_id s).2
        (layoutPhase env d doc.upload_group_id s).1)) d .extraction (by simp)
  have h5 := loopPhase_lookup_ne d doc.upload_group_id .insights (env.insightsRun d)
    (loopPhase d doc.upload_group_id .fraud (env.fraudRun d)
      (loopPhase d doc.upload_group_id .tampering (env.tamperingRun d)
        (extractionPhase d doc.upload_group_id (layoutPhase env d doc.upload_group_id s).2
          (layoutPhase env d doc.upload_group_id s).1))) d .extraction (by simp)
  split
  · exact ⟨_, by rw [lookupAgent_updateDoc, h5, h4, h3, h2], rfl, rfl⟩
  · split
    · exact ⟨_, by rw [lookupAgent_run_group_agents, lookupAgent_updateDoc, h5, h4, h3, h2],
        rfl, rfl⟩
    · exact ⟨_, by rw [lookupAgent_updateDoc, h5, h4, h3, h2], rfl, rfl⟩

/-- C2 (amended).  On a document with no prior AgentResults the pipeline is
strictly serial in the order Layout → Extraction → Tampering → Fraud →
Insights: with the clock starting at `now = s.clock`, Layout runs at times
(now, now+1), Extraction at (now+2, now+3), Tampering at (now+4, now+5),
Fraud at (now+6, now+7) and Insights at (now+8, now+9).  In particular
Layout completes before Extraction starts and Fraud/Insights start only
after Extraction has finished — but Tampering runs *after* Extraction, not
in a pre-extraction wave. -/
theorem c2_serial_order (R : Type) (env : Env R) (d : ℕ) (s : Store R) (doc : DocRec)
    (hdoc : findDoc s d = some doc)
    (hl : lookupAgent s d .layout = none) (he : lookupAgent s d .extraction = none)
    (ht : lookupAgent s d .tampering = none) (hf : lookupAgent s d .fraud = none)
    (hi : lookupAgent s d .insights = none) :
    ∃ lrec erec trec frec irec,
      lookupAgent (run_all_agents env d s) d .layout = some lrec ∧
        lookupAgent (run_all_agents env d s) d .extraction = some erec ∧
        lookupAgent (run_all_agents env d s) d .tampering = some trec ∧
        lookupAgent (run_all_agents env d s) d .fraud = some frec ∧
        lookupAgent (run_all_agents env d s) d .insights = some irec ∧
        lrec.started_at = some s.clock ∧ lrec.completed_at = some (s.clock + 1) ∧
        erec.started_at = some (s.clock + 2) ∧ erec.completed_at = some (s.clock + 3) ∧
        trec.started_at = some (s.clock + 4) ∧ trec.completed_at = some (s.clock + 5) ∧
        frec.started_at = some (s.clock + 6) ∧ frec.completed_at = some (s.clock + 7) ∧
        irec.started_at = some (s.clock + 8) ∧ irec.completed_at = some (s.clock + 9) := by
  rw [run_all_agents, hdoc]
  dsimp only
  -- Layout phase
  have hL1 : (layoutPhase env d doc.upload_group_id s).1
      = (runPhase d .layout (env.layoutRun d) (ensureAgent s d doc.upload_group_id .layout)).1 :=
    layoutPhase_run env d doc.upload_group_id s (by intro r hr; rw [hl] at hr; cases hr)
  have hensL := lookupAgent_ensureAgent_self s d doc.upload_group_id .layout
  rw [hl] at hensL
  simp only [Option.getD_none] at hensL
  have hckEnsL : (ensureAgent s d doc.upload_group_id .layout).clock = s.clock :=
    (ensureAgent_tables s d doc.upload_group_id .layout).2.2.2.2.2
  obtain ⟨lrec, hlrec, hlst, hlco, _⟩ :=
    runPhase_lookup_self d .layout (env.layoutRun d)
      (ensureAgent s d doc.upload_group_id .layout) _ hensL
  rw [hckEnsL] at hlst hlco
  have hckA : (layoutPhase env d doc.upload_group_id s).1.clock = s.clock + 2 := by
    rw [hL1, runPhase_clock, hckEnsL]
  have hAlayout : lookupAgent (layoutPhase env d doc.upload_group_id s).1 d .layout
      = some lrec := by rw [hL1]; exact hlrec
  have hAof : ∀ ty2, ¬ (d = d ∧ ty2 = AgentType.layout) →
      lookupAgent (layoutPhase env d doc.upload_group_id s).1 d ty2
        = lookupAgent s d ty2 := by
    intro ty2 hne
    rw [hL1, runPhase_lookup_ne _ _ _ _ _ _ hne,
      lookupAgent_ensureAgent_ne _ _ _ _ _ _ hne]
  -- Extraction phase
  have hE1 : extractionPhase d doc.upload_group_id
      (layoutPhase env d doc.upload_group_id s).2 (layoutPhase env d doc.upload_group_id s).1
      = (runPhase d .extraction (fun _ => .error extractionTypeError)
          (ensureAgent (layoutPhase env d doc.upload_group_id s).1 d
            doc.upload_group_id .extraction)).1 := by
    refine extractionPhase_run d doc.upload_group_id _ _ ?_
    intro r hr
    rw [hAof .extraction (by simp), he] at hr
    cases hr
  have hensE := lookupAgent_ensureAgent_self (layoutPhase env d doc.upload_group_id s).1 d
    doc.upload_group_id .extraction
  rw [hAof .extraction (by simp), he] at hensE
  simp only [Option.getD_none] at hensE
  have hckEnsE : (ensureAgent (layoutPhase env d doc.upload_group_id s).1 d
      doc.upload_group_id .extraction).clock = s.clock + 2 :=
    ((ensureAgent_tables _ d doc.upload_group_id .extraction).2.2.2.2.2).trans hckA
  obtain ⟨erec, herec, hest, heco, _⟩ :=
    runPhase_lookup_self d .extraction (fun _ => .error extractionTypeError)
      (ensureAgent (layoutPhase env d doc.upload_group_id s).1 d
        doc.upload_group_id .extraction) _ hensE
  rw [hckEnsE] at hest heco
  have hckB : (extractionPhase d doc.upload_group_id
      (layoutPhase env d doc.upload_group_id s).2
      (layoutPhase env d doc.upload_group_id s).1).clock = s.clock + 4 := by
    rw [hE1, runPhase_clock, hckEnsE]
  have hBext : lookupAgent (extractionPhase d doc.upload_group_id
      (layoutPhase env d doc.upload_group_id s).2
      (layoutPhase env d doc.upload_group_id s).1) d .extraction = some erec := by
    rw [hE1]; exact herec
  have hBof : ∀ ty2, ¬ (d = d ∧ ty2 = AgentType.extraction) →
      lookupAgent (extractionPhase d doc.upload_group_id
        (layoutPhase env d doc.upload_group_id s).2
        (layoutPhase env d doc.upload_group_id s).1) d ty2
        = lookupAgent (layoutPhase env d doc.upload_group_id s).1 d ty2 := by
    intro ty2 hne
    rw [hE1, runPhase_lookup_ne _ _ _ _ _ _ hne,
      lookupAgent_ensureAgent_ne _ _ _ _ _ _ hne]
  -- Tampering phase
  have hT1 : loopPhase d doc.upload_group_id .tampering (env.tamperingRun d)
      (extractionPhase d doc.upload_group_id (layoutPhase env d doc.upload_group_id s).2
        (layoutPhase env d doc.upload_group_id s).1)
      = (runPhase d .tampering (env.tamperingRun d)
          (ensureAgent (extractionPhase d doc.upload_group_id
            (layoutPhase env d doc.upload_group_id s).2
            (layoutPhase env d doc.upload_group_id s).1) d
            doc.upload_group_id .tampering)).1 := by
    refine loopPhase_run d doc.upload_group_id .tampering _ _ ?_
    intro r hr
    rw [hBof .tampering (by simp), hAof .tampering (by simp), ht] at hr
    cases hr
  have hensT := lookupAgent_ensureAgent_self (extractionPhase d doc.upload_group_id
    (layoutPhase env d doc.upload_group_id s).2
    (layoutPhase env d doc.upload_group_id s).1) d doc.upload_group_id .tampering
  rw [hBof .tampering (by simp), hAof .tampering (by simp), ht] at hensT
  simp only [Option.getD_none] at hensT
  have hckEnsT : (ensureAgent (extractionPhase d doc.upload_group_id
      (layoutPhase env d doc.upload_group_id s).2
      (layoutPhase env d doc.upload_group_id s).1) d
      doc.upload_group_id .tampering).clock = s.clock + 4 :=
    ((ensureAgent_tables _ d doc.upload_group_id .tampering).2.2.2.2.2).trans hckB
  obtain ⟨trec, htrec, htst, htco, _⟩ :=
    runPhase_lookup_self d .tampering (env.tamperingRun d)
      (ensureAgent (extractionPhase d doc.upload_group_id
        (layoutPhase env d doc.upload_group_id s).2
        (layoutPhase env d doc.upload_group_id s).1) d doc.upload_group_id .tampering) _ hensT
  rw [hckEnsT] at htst htco
  set sB := extractionPhase d doc.upload_group_id
    (layoutPhase env d doc.upload_group_id s).2
    (layoutPhase env d doc.upload_group_id s).1
  set sC := loopPhase d doc.upload_group_id .tampering (env.tamperingRun d) sB
  have hckC : sC.clock = s.clock + 6 := by
    rw [hT1, runPhase_clock, hckEnsT]
  have hCtam : lookupAgent sC d .tampering = some trec := by
    rw [hT1]; exact htrec
  have hCof : ∀ ty2, ¬ (d = d ∧ ty2 = AgentType.tampering) →
      lookupAgent sC d ty2 = lookupAgent sB d ty2 := by
    intro ty2 hne
    rw [hT1, runPhase_lookup_ne _ _ _ _ _ _ hne,
      lookupAgent_ensureAgent_ne _ _ _ _ _ _ hne]
  -- Fraud phase
  have hF1 : loopPhase d doc.upload_group_id .fraud (env.fraudRun d) sC
      = (runPhase d .fraud (env.fraudRun d)
          (ensureAgent sC d doc.upload_group_id .fraud)).1 := by
    refine loopPhase_run d doc.upload_group_id .fraud _ _ ?_
    intro r hr
    rw [hCof .fraud (by simp), hBof .fraud (by simp), hAof .fraud (by simp), hf] at hr
    cases hr
  have hensF := lookupAgent_ensureAgent_self sC d doc.upload_group_id .fraud
  rw [hCof .fraud (by simp), hBof .fraud (by simp), hAof .fraud (by simp), hf] at hensF
  simp only [Option.getD_none] at hensF
  have hckEnsF : (ensureAgent sC d doc.upload_group_id .fraud).clock = s.clock + 6 :=
    ((ensureAgent_tables _ d doc.upload_group_id .fraud).2.2.2.2.2).trans hckC
  obtain ⟨frec, hfrec, hfst, hfco, _⟩ :=
    runPhase_lookup_self d .fraud (env.fraudRun d)
      (ensureAgent sC d doc.upload_group_id .fraud) _ hensF
  rw [hckEnsF] at hfst hfco
  set sD := loopPhase d doc.upload_group_id .fraud (env.fraudRun d) sC
  have hckD : sD.clock = s.clock + 8 := by
    rw [hF1, runPhase_clock, hckEnsF]
  have hDfraud : lookupAgent sD d .fraud = some frec := by
    rw [hF1]; exact hfrec
  have hDof : ∀ ty2, ¬ (d = d ∧ ty2 = AgentType.fraud) →
      lookupAgent sD d ty2 = lookupAgent sC d ty2 := by
    intro ty2 hne
    rw [hF1, runPhase_lookup_ne _ _ _ _ _ _ hne,
      lookupAgent_ensureAgent_ne _ _ _ _ _ _ hne]
  -- Insights phase
  have hI1 : loopPhase d doc.upload_group_id .insights (env.insightsRun d) sD
      = (runPhase d .insights (env.insightsRun d)
          (ensureAgent sD d doc.upload_group_id .insights)).1 := by
    refine loopPhase_run d doc.upload_group_id .insights _ _ ?_
    intro r hr
    rw [hDof .insights (by simp), hCof .insights (by simp), hBof .insights (by simp),
      hAof .insights (by simp), hi] at hr
    cases hr
  have hensI := lookupAgent_ensureAgent_self sD d doc.upload_group_id .insights
  rw [hDof .insights (by simp), hCof .insights (by simp), hBof .insights (by simp),
    hAof .insights (by simp), hi] at hensI
  simp only [Option.getD_none] at hensI
  have hckEnsI : (ensureAgent sD d doc.upload_group_id .insights).clock = s.clock + 8 :=
    ((ensureAgent_tables _ d doc.upload_group_id .insights).2.2.2.2.2).trans hckD
  obtain ⟨irec, hirec, hist, hico, _⟩ :=
    runPhase_lookup_self d .insights (env.insightsRun d)
      (ensureAgent sD d doc.upload_group_id .insights) _ hensI
  rw [hckEnsI] at hist hico
  set sE := loopPhase d doc.upload_group_id .insights (env.insightsRun d) sD
  have hEins : lookupAgent sE d .insights = some irec := by
    rw [hI1]; exact hirec
  have hEof : ∀ ty2, ¬ (d = d ∧ ty2 = AgentType.insights) →
      lookupAgent sE d ty2 = lookupAgent sD d ty2 := by
    intro ty2 hne
    rw [hI1, runPhase_lookup_ne _ _ _ _ _ _ hne,
      lookupAgent_ensureAgent_ne _ _ _ _ _ _ hne]
  -- final lookups through the document update
  have hfl : lookupAgent (updateDoc sE d .completed) d .layout = some lrec := by
    rw [lookupAgent_updateDoc, hEof .layout (by simp), hDof .layout (by simp),
      hCof .layout (by simp), hBof .layout (by simp)]
    exact hAlayout
  have hfe : lookupAgent (updateDoc sE d .completed) d .extraction = some erec := by
    rw [lookupAgent_updateDoc, hEof .extraction (by simp), hDof .extraction (by simp),
      hCof .extraction (by simp)]
    exact hBext
  have hft : lookupAgent (updateDoc sE d .completed) d .tampering = some trec := by
    rw [lookupAgent_updateDoc, hEof .tampering (by simp), hDof .tampering (by simp)]
    exact hCtam
  have hff : lookupAgent (updateDoc sE d .completed) d .fraud = some frec := by
    rw [lookupAgent_updateDoc, hEof .fraud (by simp)]
    exact hDfraud
  have hfi : lookupAgent (updateDoc sE d .completed) d .insights = some irec := by
    rw [lookupAgent_updateDoc]
    exact hEins
  -- the group trigger never touches agent rows
  split
  · exact ⟨lrec, erec, trec, frec, irec, hfl, hfe, hft, hff, hfi,
      hlst, hlco, hest, heco, htst, htco, hfst, hfco, hist, hico⟩
  · split
    · exact ⟨lrec, erec, trec, frec, irec,
        by rw [lookupAgent_run_group_agents]; exact hfl,
        by rw [lookupAgent_run_group_agents]; exact hfe,
        by rw [lookupAgent_run_group_agents]; exact hft,
        by rw [lookupAgent_run_group_agents]; exact hff,
        by rw [lookupAgent_run_group_agents]; exact hfi,
        hlst, hlco, hest, heco, htst, htco, hfst, hfco, hist, hico⟩
    · exact ⟨lrec, erec, trec, frec, irec, hfl, hfe, hft, hff, hfi,
        hlst, hlco, hest, heco, htst, htco, hfst, hfco, hist, hico⟩

/-- A constant benign oracle environment: every delegated agent invocation
succeeds with an empty low-risk output. -/
def env0 : Env ℕ :=
  { layoutRun := fun _ _ => .ok { results := 0, summary := "", risk_level := "low" },
    tamperingRun := fun _ _ => .ok { results := 0, summary := "", risk_level := "low" },
    fraudRun := fun _ _ => .ok { results := 0, summary := "", risk_level := "low" },
    insightsRun := fun _ _ => .ok { results := 0, summary := "", risk_level := "low" },
    tamperingRunGroup := fun _ _ => .ok { results := 0, summary := "", risk_level := "low" },
    insightsRunGroup := fun _ _ => .ok { results := 0, summary := "", risk_level := "low" } }

/-- A store holding one freshly uploaded stand-alone document and no agent
rows. -/
def store0 : Store ℕ :=
  { docs := [{ id := 0, upload_group_id := none, status := .uploaded }] }

/-- On the one-document store with benign oracles, the pipeline leaves the
Extraction AgentResult Failed with the `TypeError` message. -/
theorem c1_extraction_always_fails_witness :
    (findDoc store0 0).isSome = true ∧
      (lookupAgent store0 0 .extraction).all (fun a => a.status != .completed) = true ∧
      ∃ rec, lookupAgent (run_all_agents env0 0 store0) 0 .extraction = some rec ∧
        rec.status = .failed ∧ rec.error_message = some extractionTypeError :=
  ⟨by decide, by decide,
    c1_extraction_always_fails ℕ env0 0 store0 (by decide) (by decide)⟩

/-- C2 counterexample.  On a fresh document (clock 0, benign oracles) the
Tampering AgentResult completes at time 5 while the Extraction AgentResult
starts at time 2: Tampering does not complete before Extraction starts, so
there is no pre-extraction wave containing Tampering — the code runs
Tampering strictly after Extraction. -/
theorem c2_counterexample :
    (lookupAgent (run_all_agents env0 0 store0) 0 .tampering).map
        (fun a => a.completed_at) = some (some 5) ∧
      (lookupAgent (run_all_agents env0 0 store0) 0 .extraction).map
        (fun a => a.started_at) = some (some 2) ∧
      ¬ (5 : ℕ) ≤ 2 := by
  refine ⟨by decide, by decide, by decide⟩

/-- The serial-order theorem evaluated on the concrete one-document store. -/
theorem c2_serial_order_witness :
    findDoc store0 0 = some { id := 0, upload_group_id := none, status := .uploaded } ∧
      lookupAgent store0 0 .layout = none ∧
      lookupAgent store0 0 .extraction = none ∧
      lookupAgent store0 0 .tampering = none ∧
      lookupAgent store0 0 .fraud = none ∧
      lookupAgent store0 0 .insights = none ∧
      ∃ lrec erec trec frec irec,
        lookupAgent (run_all_agents env0 0 store0) 0 .layout = some lrec ∧
          lookupAgent (run_all_agents env0 0 store0) 0 .extraction = some erec ∧
          lookupAgent (run_all_agents env0 0 store0) 0 .tampering = some trec ∧
          lookupAgent (run_all_agents env0 0 store0) 0 .fraud = some frec ∧
          lookupAgent (run_all_agents env0 0 store0) 0 .insights = some irec ∧
          lrec.started_at = some store0.clock ∧
          lrec.completed_at = some (store0.clock + 1) ∧
          erec.started_at = some (store0.clock + 2) ∧
          erec.completed_at = some (store0.clock + 3) ∧
          trec.started_at = some (store0.clock + 4) ∧
          trec.completed_at = some (store0.clock + 5) ∧
          frec.started_at = some (store0.clock + 6) ∧
          frec.completed_at = some (store0.clock + 7) ∧
          irec.started_at = some (store0.clock + 8) ∧
          irec.completed_at = some (store0.clock + 9) :=
  ⟨by decide, by decide, by decide, by decide, by decide, by decide,
    c2_serial_order ℕ env0 0 store0 { id := 0, upload_group_id := none, status := .uploaded }
      (by decide) (by decide) (by decide) (by decide) (by decide) (by decide)⟩

/-- Changing only the clock does not affect group lookups. -/
theorem lookupGroup_clock (s : Store R) (c : ℕ) (g : ℕ) (ty : AgentType) :
    lookupGroup { s with clock := c } g ty = lookupGroup s g ty := rfl

/-- `runGroupPhase` leaves every other group row unchanged. -/
theorem runGroupPhase_lookup_ne (g : ℕ) (ty : AgentType)
    (runner : Store R → Except String (AgentOutput R)) (s : Store R)
    (g2 : ℕ) (ty2 : AgentType) (hne : ¬ (g2 = g ∧ ty2 = ty)) :
    lookupGroup (runGroupPhase g ty runner s) g2 ty2 = lookupGroup s g2 ty2 := by
  rw [runGroupPhase]
  cases runner (updateGroup { s with clock := s.clock + 1 } g ty (startGroupRec s.clock)) with
  | ok out =>
    show lookupGroup (updateGroup _ g ty _) g2 ty2 = _
    rw [lookupGroup_updateGroup_ne _ _ _ _ _ _
        (fun a => groupKey_completeGroupRec _ _ _ _ _) hne,
      lookupGroup_clock,
      lookupGroup_updateGroup_ne _ _ _ _ _ _ (fun a => groupKey_startGroupRec _ _ _ _) hne,
      lookupGroup_clock]
  | error e =>
    show lookupGroup (updateGroup _ g ty _) g2 ty2 = _
    rw [lookupGroup_updateGroup_ne _ _ _ _ _ _
        (fun a => groupKey_failGroupRec _ _ _ _ _) hne,
      lookupGroup_clock,
      lookupGroup_updateGroup_ne _ _ _ _ _ _ (fun a => groupKey_startGroupRec _ _ _ _) hne,
      lookupGroup_clock]

/-- When the invocation raises, the group row of the executed agent ends
Failed with the raised message. -/
theorem runGroupPhase_lookup_self_error (g : ℕ) (ty : AgentType) (e : String)
    (s : Store R) (r : GroupRec R) (h : lookupGroup s g ty = some r) :
    lookupGroup (runGroupPhase g ty (fun _ => .error e) s) g ty
      = some (failGroupRec e (s.clock + 1) (startGroupRec s.clock r)) := by
  rw [runGroupPhase]
  show lookupGroup (updateGroup _ g ty _) g ty = _
  rw [lookupGroup_updateGroup_self _ _ _ _ (fun a => groupKey_failGroupRec _ _ _ _ _),
    lookupGroup_clock,
    lookupGroup_updateGroup_self _ _ _ _ (fun a => groupKey_startGroupRec _ _ _ _),
    lookupGroup_clock, h]
  rfl

/-- A group-agent step whose invocation raises drives its group row (created
if missing, re-run if not Completed) to Failed with the raised message. -/
theorem groupAgentStep_lookup_self_error (g : ℕ) (ty : AgentType) (e : String) (s : Store R)
    (hgate : (lookupGroup s g ty).all (fun r => r.status != .completed) = true) :
    ∃ rec, lookupGroup (groupAgentStep g ty (fun _ => .error e) s) g ty = some rec ∧
      rec.status = .failed ∧ rec.error_message = some e := by
  rw [groupAgentStep]
  split
  · rename_i heq
    have hens := lookupGroup_ensureGroup_self s g ty
    rw [heq] at hens
    simp only [Option.getD_none] at hens
    exact ⟨_, runGroupPhase_lookup_self_error g ty e _ _ hens, rfl, rfl⟩
  · rename_i r heq
    rw [heq] at hgate
    have hst : (r.status == AgentStatus.completed) = false := by
      simpa using hgate
    rw [hst]
    simp only [Bool.false_eq_true, if_false]
    exact ⟨_, runGroupPhase_lookup_self_error g ty e s r heq, rfl, rfl⟩

/-- A group-agent step leaves every other group row unchanged. -/
theorem groupAgentStep_lookup_ne (g : ℕ) (ty : AgentType)
    (runner : Store R → Except String (AgentOutput R)) (s : Store R)
    (g2 : ℕ) (ty2 : AgentType) (hne : ¬ (g2 = g ∧ ty2 = ty)) :
    lookupGroup (groupAgentStep g ty runner s) g2 ty2 = lookupGroup s g2 ty2 := by
  rw [groupAgentStep]
  split
  · rw [runGroupPhase_lookup_ne _ _ _ _ _ _ hne, lookupGroup_ensureGroup_ne _ _ _ _ _ hne]
  · split
    · rfl
    · exact runGroupPhase_lookup_ne _ _ _ _ _ _ hne

/-- C3.  For every group that passes the trigger conditions (non-empty, all
documents Completed, at least two documents) and whose fraud
GroupAgentResult is not already Completed, the group phase drives the fraud
GroupAgentResult to Failed with the `AttributeError` message: FraudAgent
defines no `run_group` method, so `agent.run_group(...)` raises before any
group fraud analysis happens, and the GroupAgentResult can never reach
Completed. -/
theorem c3_group_fraud_always_fails (R : Type) (env : Env R) (g : ℕ) (s : Store R)
    (hne : (s.docs.filter (fun x => x.upload_group_id == some g)).isEmpty = false)
    (hall : (s.docs.filter (fun x => x.upload_group_id == some g)).all
      (fun x => x.status == .completed) = true)
    (hlen : 1 < (s.docs.filter (fun x => x.upload_group_id == some g)).length)
    (hgate : (lookupGroup s g .fraud).all (fun r => r.status != .completed) = true) :
    ∃ rec, lookupGroup (run_group_agents env g s) g .fraud = some rec ∧
      rec.status = .failed ∧ rec.error_message = some fraudGroupAttributeError := by
  rw [run_group_agents]
  dsimp only
  rw [if_neg (by simp [hne]), if_neg (by simp [hall]), if_neg (by omega)]
  have h1 : lookupGroup (groupAgentStep g .tampering (env.tamperingRunGroup g) s) g .fraud
      = lookupGroup s g .fraud :=
    groupAgentStep_lookup_ne g .tampering (env.tamperingRunGroup g) s g .fraud (by simp)
  have hgate2 : (lookupGroup (groupAgentStep g .tampering (env.tamperingRunGroup g) s) g
      .fraud).all (fun r => r.status != .completed) = true := by
    rw [h1]; exact hgate
  obtain ⟨rec, hrec, hst, herr⟩ :=
    groupAgentStep_lookup_self_error g .fraud fraudGroupAttributeError _ hgate2
  refine ⟨rec, ?_, hst, herr⟩
  rw [groupAgentStep_lookup_ne g .insights (env.insightsRunGroup g) _ g .fraud (by simp)]
  exact hrec

/-- A store holding a completed two-document group and no group rows. -/
def storeG : Store ℕ :=
  { docs := [{ id := 0, upload_group_id := some 7, status := .completed },
             { id := 1, upload_group_id := some 7, status := .completed }] }

/-- On the concrete completed two-document group the fraud GroupAgentResult
ends Failed with the `AttributeError` message. -/
theorem c3_group_fraud_always_fails_witness :
    (storeG.docs.filter (fun x => x.upload_group_id == some 7)).isEmpty = false ∧
      (storeG.docs.filter (fun x => x.upload_group_id == some 7)).all
        (fun x => x.status == .completed) = true ∧
      1 < (storeG.docs.filter (fun x => x.upload_group_id == some 7)).length ∧
      (lookupGroup storeG 7 .fraud).all (fun r => r.status != .completed) = true ∧
      ∃ rec, lookupGroup (run_group_agents env0 7 storeG) 7 .fraud = some rec ∧
        rec.status = .failed ∧ rec.error_message = some fraudGroupAttributeError :=
  ⟨by decide, by decide, by decide, by decide,
    c3_group_fraud_always_fails ℕ env0 7 storeG (by decide) (by decide) (by decide)
      (by decide)⟩

/-- A Completed AgentResult row of document 0 in group 7. -/
def c4row (ty : AgentType) : AgentRec ℕ :=
  { document_id := 0, upload_group_id := some 7, agent_type := ty, status := .completed }

/-- A store holding a completed two-document group whose document 0 has all
five AgentResults Completed and whose group has no GroupAgentResults yet. -/
def store1 : Store ℕ :=
  { docs := [{ id := 0, upload_group_id := some 7, status := .completed },
             { id := 1, upload_group_id := some 7, status := .completed }],
    agent_results := [c4row .layout, c4row .extraction, c4row .tampering,
      c4row .fraud, c4row .insights] }

/-- C4 counterexample.  Re-running the pipeline on document 0 of `store1`
(all five AgentResults Completed) skips every per-document agent and leaves
`agent_results` untouched, but it is not free of writes: the group trigger
fires (both documents of group 7 are Completed) and inserts
GroupAgentResult rows into the previously empty `group_results` table. -/
theorem c4_counterexample :
    (lookupAgent store1 0 .layout).map (fun a => a.status) = some .completed ∧
      (lookupAgent store1 0 .extraction).map (fun a => a.status) = some .completed ∧
      (lookupAgent store1 0 .tampering).map (fun a => a.status) = some .completed ∧
      (lookupAgent store1 0 .fraud).map (fun a => a.status) = some .completed ∧
      (lookupAgent store1 0 .insights).map (fun a => a.status) = some .completed ∧
      (run_all_agents env0 0 store1).agent_results = store1.agent_results ∧
      ¬ (run_all_agents env0 0 store1).group_results = store1.group_results := by
  decide

/-- C4 (amended).  Re-running the pipeline on a document whose five
AgentResults are all Completed skips every per-document agent: no
AgentResult, RawTransaction, StatementMetrics or AggregatedMetrics row is
modified; and when the document belongs to no upload group, no
GroupAgentResult row is modified either.  (For a grouped document the
re-run still fires the group trigger, which can write GroupAgentResult
rows — see the counterexample.) -/
theorem c4_rerun_noop (R : Type) (env : Env R) (d : ℕ) (s : Store R) (doc : DocRec)
    (hdoc : findDoc s d = some doc)
    (lr er tr fr ir : AgentRec R)
    (hl : lookupAgent s d .layout = some lr) (hlc : lr.status = .completed)
    (he : lookupAgent s d .extraction = some er) (hec : er.status = .completed)
    (ht : lookupAgent s d .tampering = some tr) (htc : tr.status = .completed)
    (hf : lookupAgent s d .fraud = some fr) (hfc : fr.status = .completed)
    (hi : lookupAgent s d .insights = some ir) (hic : ir.status = .completed) :
    (run_all_agents env d s).agent_results = s.agent_results ∧
      (run_all_agents env d s).raw_transactions = s.raw_transactions ∧
      (run_all_agents env d s).statement_metrics = s.statement_metrics ∧
      (run_all_agents env d s).aggregated_metrics = s.aggregated_metrics ∧
      (doc.upload_group_id = none →
        (run_all_agents env d s).group_results = s.group_results) := by
  rw [run_all_agents, hdoc]
  dsimp only
  rw [layoutPhase_completed env d doc.upload_group_id s lr hl hlc]
  dsimp only
  rw [extractionPhase_completed d doc.upload_group_id lr.results s er he hec,
    loopPhase_completed d doc.upload_group_id .tampering (env.tamperingRun d) s tr ht htc,
    loopPhase_completed d doc.upload_group_id .fraud (env.fraudRun d) s fr hf hfc,
    loopPhase_completed d doc.upload_group_id .insights (env.insightsRun d) s ir hi hic]
  split
  · exact ⟨rfl, rfl, rfl, rfl, fun _ => rfl⟩
  · rename_i g heq
    split
    · have htab := run_group_agents_tables env g (updateDoc s d .completed)
      refine ⟨htab.2.1, htab.2.2.1, htab.2.2.2.1, htab.2.2.2.2, ?_⟩
      intro hnone
      rw [heq] at hnone
      cases hnone
    · exact ⟨rfl, rfl, rfl, rfl, fun _ => rfl⟩

/-- The re-run no-op theorem evaluated on the concrete completed store. -/
theorem c4_rerun_noop_witness :
    findDoc store1 0 = some { id := 0, upload_group_id := some 7, status := .completed } ∧
      lookupAgent store1 0 .layout = some (c4row .layout) ∧
      (c4row AgentType.layout).status = .completed ∧
      lookupAgent store1 0 .extraction = some (c4row .extraction) ∧
      (c4row AgentType.extraction).status = .completed ∧
      lookupAgent store1 0 .tampering = some (c4row .tampering) ∧
      (c4row AgentType.tampering).status = .completed ∧
      lookupAgent store1 0 .fraud = some (c4row .fraud) ∧
      (c4row AgentType.fraud).status = .completed ∧
      lookupAgent store1 0 .insights = some (c4row .insights) ∧
      (c4row AgentType.insights).status = .completed ∧
      ((run_all_agents env0 0 store1).agent_results = store1.agent_results ∧
        (run_all_agents env0 0 store1).raw_transactions = store1.raw_transactions ∧
        (run_all_agents env0 0 store1).statement_metrics = store1.statement_metrics ∧
        (run_all_agents env0 0 store1).aggregated_metrics = store1.aggregated_metrics ∧
        (({ id := 0, upload_group_id := some 7, status := .completed } : DocRec).upload_group_id
            = none →
          (run_all_agents env0 0 store1).group_results = store1.group_results)) :=
  ⟨by decide, by decide, by decide, by decide, by decide, by decide, by decide, by decide,
    by decide, by decide, by decide,
    c4_rerun_noop ℕ env0 0 store1 { id := 0, upload_group_id := some 7, status := .completed }
      (by decide) (c4row .layout) (c4row .extraction) (c4row .tampering) (c4row .fraud)
      (c4row .insights) (by decide) (by decide) (by decide) (by decide) (by decide) (by decide)
      (by decide) (by decide) (by decide) (by decide)⟩

/-- The layout context assembled by `LayoutAgent._analyze_layout`
(layout.py:167-213). -/
structure LayoutContext where
  bank_detected : String
  confidence : ℚ
  is_scanned : Bool
  table_structure : Option String
  date_format : String
  amount_format : String
  multi_line_descriptions : Bool
  column_mapping : List (String × ℕ)
  special_markers : List String
  page_count : ℕ
  has_tables : Bool
  deriving Repr, DecidableEq

/-- `is_scanned_pdf` (pdf_processor.py:92-104): check the first three page
texts (`page.extract_text() or ""`); if any strips to more than 20
characters the PDF is not scanned, otherwise it is. -/
def is_scanned_pdf (pages : List String) : Bool :=
  (pages.take 3).all (fun t => ! decide (20 < (pyStrip t).length))

/-- `LayoutAgent._analyze_layout` (layout.py:167-213) on the extracted page
texts, with the five sub-analysis results (bank detection, table analysis,
format detection, special markers, multi-line detection) passed as oracle
parameters.  The `context` dict is initialised with
`is_scanned := False` (layout.py:172) and steps 1-5 fill every other field
but never reassign `is_scanned`. -/
def analyze_layout (pages : List String) (bank_detected : String) (confidence : ℚ)
    (table_structure : Option String) (has_tables : Bool)
    (column_mapping : List (String × ℕ)) (date_format : String) (amount_format : String)
    (special_markers : List String) (multi_line_descriptions : Bool) : LayoutContext :=
  { bank_detected := bank_detected,
    confidence := confidence,
    is_scanned := false,
    table_structure := table_structure,
    date_format := date_format,
    amount_format := amount_format,
    multi_line_descriptions := multi_line_descriptions,
    column_mapping := column_mapping,
    special_markers := special_markers,
    page_count := pages.length,
    has_tables := has_tables }

/-- C8.  Whenever the document actually is scanned (`is_scanned_pdf` holds,
e.g. for a document of blank pages), the `is_scanned` field persisted by the
Layout agent disagrees with the `is_scanned_pdf` primitive, whatever the
five sub-analyses report: `_analyze_layout` hardcodes `is_scanned := False`
(layout.py:172) and never calls `is_scanned_pdf`. -/
theorem c8_is_scanned_hardcoded (pages : List String) (bank_detected : String)
    (confidence : ℚ) (table_structure : Option String) (has_tables : Bool)
    (column_mapping : List (String × ℕ)) (date_format : String) (amount_format : String)
    (special_markers : List String) (multi_line_descriptions : Bool)
    (h : is_scanned_pdf pages = true) :
    (analyze_layout pages bank_detected confidence table_structure has_tables
        column_mapping date_format amount_format special_markers
        multi_line_descriptions).is_scanned ≠ is_scanned_pdf pages := by
  rw [h]
  exact Bool.false_ne_true

/-- On a one-blank-page document the primitive reports scanned while the
persisted layout context does not. -/
theorem c8_is_scanned_hardcoded_witness :
    is_scanned_pdf [""] = true ∧
      (analyze_layout [""] "Unknown" 0 none false [] "DD MMM" "decimal_comma" []
          false).is_scanned ≠ is_scanned_pdf [""] :=
  ⟨by decide,
    c8_is_scanned_hardcoded [""] "Unknown" 0 none false [] "DD MMM" "decimal_comma" []
      false (by decide)⟩

end ThirdEye
